import Mathlib

/-!
Planter: pump duty-cycle controller (`src/main.cpp`).

A shallow embedding of the Arduino sketch: the global variables become one
record, `millis()`, the sensor and the button become explicit inputs of each
step, and `uint32_t` arithmetic is arithmetic on `Nat` modulo `2^32`.
-/

namespace Planter

/-! ## Machine arithmetic -/

/-- Modulus of `uint32_t` arithmetic. -/
def U32 : Nat := 4294967296

/-- Unsigned 32-bit subtraction `a - b`. -/
def sub32 (a b : Nat) : Nat := (a % U32 + (U32 - b % U32)) % U32

/-- Unsigned 32-bit addition `a + b`. -/
def add32 (a b : Nat) : Nat := (a + b) % U32

/-! ## Floating point values

A C `float` is modelled by its value: not-a-number, an infinity, or a finite
number (the finite values of a `float` are rationals). Only `isnan` and the
comparison `>=` are used by the sketch. -/

/-- Value of a C `float`. -/
inductive Flt where
  | nan
  | pinf
  | ninf
  | fin (q : ℚ)
  deriving DecidableEq

/-- C `isnan`. -/
def Flt.isnan : Flt → Bool
  | .nan => true
  | _ => false

/-- C comparison `a >= b` on floats: false as soon as one side is NaN. -/
def Flt.ge : Flt → Flt → Bool
  | .nan, _ => false
  | _, .nan => false
  | .pinf, _ => true
  | _, .ninf => true
  | .ninf, _ => false
  | .fin _, .pinf => false
  | .fin a, .fin b => decide (b ≤ a)

/-! ## Digital pins -/

/-- Level of a digital pin. -/
inductive Level where
  | LOW
  | HIGH
  deriving DecidableEq

/-- C `!level` on a pin level used as an integer. -/
def Level.not : Level → Level
  | .LOW => .HIGH
  | .HIGH => .LOW

/-! ## User settings and constants (lines 6-22) -/

def RELAY_ON_LEVEL : Level := Level.LOW

def TEMP_THRESHOLD : Flt := Flt.fin 30

def DHT11_READ_TIMEOUT : Nat := 10 * 1000

def BACKLIGHT_TIMEOUT : Nat := 60 * 1000

def HOT_ON_MS : Nat := 20 * 60 * 1000

def HOT_OFF_MS : Nat := 10 * 60 * 1000

def COOL_ON_MS : Nat := 15 * 60 * 1000

def COOL_OFF_MS : Nat := 15 * 60 * 1000

/-! ## State -/

/-- The global variables of the sketch, the `static` local `lastLcd`, and what
the sketch has sent to its outputs: the levels written to the relay pin (newest
first), the last backlight command sent to the display, and the characters
printed on display row 2 by the last refresh. -/
structure State where
  backlightTimerStart : Nat
  backlightOn : Bool
  pumpOn : Bool
  stateStarted : Nat
  onMs : Nat
  offMs : Nat
  cycleTag : String
  hotDetected : Bool
  lastSensorRead : Nat
  lastTemp : Flt
  lastHum : Flt
  lastLcd : Nat
  relayWrites : List Level
  lcdBacklight : Option Bool
  row2 : List Char
  deriving DecidableEq

/-- Level currently driven on the relay pin: the last one written, if any. -/
def State.relayLevel (s : State) : Option Level := s.relayWrites.head?

/-- Initial values of the globals (lines 15-16, 33-43, 131); nothing has been
sent to the outputs yet. -/
def initState : State where
  backlightTimerStart := 0
  backlightOn := true
  pumpOn := false
  stateStarted := 0
  onMs := COOL_ON_MS
  offMs := COOL_OFF_MS
  cycleTag := "15/15"
  hotDetected := false
  lastSensorRead := 0
  lastTemp := Flt.nan
  lastHum := Flt.nan
  lastLcd := 0
  relayWrites := []
  lcdBacklight := none
  row2 := []

/-! ## Operations -/

/-- Function `updateCycle` (lines 46-57). -/
def updateCycle (s : State) : State :=
  if s.hotDetected then
    { s with onMs := HOT_ON_MS, offMs := HOT_OFF_MS, cycleTag := "20/10" }
  else
    { s with onMs := COOL_ON_MS, offMs := COOL_OFF_MS, cycleTag := "15/15" }

/-- Function `switchPump` (lines 60-68); `t` is the value `millis()` returns
inside it. -/
def switchPump (s : State) (turnOn : Bool) (t : Nat) : State :=
  let s1 := { s with pumpOn := turnOn }
  let s2 := { s1 with
    relayWrites := (if turnOn then RELAY_ON_LEVEL else RELAY_ON_LEVEL.not) :: s1.relayWrites }
  let s3 := { s2 with stateStarted := t }
  updateCycle s3

/-- Function `setup` (lines 70-88): `tSwitch` is the clock read inside
`switchPump`, `tBacklight` the one that starts the backlight timer. The splash
text on the display is not modelled. -/
def setup (s : State) (tSwitch tBacklight : Nat) : State :=
  let s1 := switchPump s true tSwitch
  let s2 := { s1 with lcdBacklight := some true }
  let s3 := { s2 with backlightTimerStart := tBacklight }
  { s3 with backlightOn := true }

/-- Time spent in the current pump phase as line 113 computes it:
`now - stateStarted` on `uint32_t`. -/
def elapsed (s : State) (now : Nat) : Nat := sub32 now s.stateStarted

/-- Backlight idle time as line 175 computes it:
`millis() - backlightTimerStart` on `uint32_t`. -/
def idle (s : State) (now : Nat) : Nat := sub32 now s.backlightTimerStart

/-- Sensor sampling block of `loop` (lines 95-110). `h` and `t` are what
`dht.readHumidity()` and `dht.readTemperature()` return; they are consumed only
when a poll is due. -/
def sensorBlock (s : State) (now : Nat) (h t : Flt) : State :=
  if DHT11_READ_TIMEOUT ≤ sub32 now s.lastSensorRead then
    let s1 := { s with lastSensorRead := now }
    if h.isnan = false ∧ t.isnan = false then
      let s2 := { s1 with lastHum := h }
      let s3 := { s2 with lastTemp := t }
      if t.ge TEMP_THRESHOLD = true ∧ s3.hotDetected = false then
        updateCycle { s3 with hotDetected := true }
      else s3
    else s1
  else s

/-- Recomputation of the hot latch from the last recorded temperature at a
phase change (lines 116-118 and 124-125). -/
def relatch (s : State) : State :=
  let s1 := { s with hotDetected := false }
  if s1.lastTemp.ge TEMP_THRESHOLD then { s1 with hotDetected := true } else s1

/-- Pump timing block of `loop` (lines 113-128). `now` is the clock value read
at the top of `loop`, `tSwitch` the one read inside `switchPump`. -/
def pumpBlock (s : State) (now tSwitch : Nat) : State :=
  if s.pumpOn = true ∧ s.onMs ≤ elapsed s now then
    switchPump (updateCycle (relatch s)) false tSwitch
  else if s.pumpOn = false ∧ s.offMs ≤ elapsed s now then
    switchPump (updateCycle (relatch s)) true tSwitch
  else s

/-- Decimal digits printed by `lcd.print` for an unsigned number. -/
def printNat (n : Nat) : List Char := Nat.toDigits 10 n

/-- Countdown of line 146, `(limit - elapsed + 999) / 1000` on `uint32_t`, for
the phase the pump is in when the display is refreshed; `el` is the value of
the local `elapsed` of line 113. -/
def remaining (s : State) (el : Nat) : Nat :=
  add32 (sub32 (if s.pumpOn then s.onMs else s.offMs) el) 999 / 1000

/-- Minutes of line 147, narrowed to `uint8_t`. -/
def minutes (s : State) (el : Nat) : Nat := (remaining s el / 60) % 256

/-- Seconds of line 148, narrowed to `uint8_t`. -/
def seconds (s : State) (el : Nat) : Nat := (remaining s el % 60) % 256

/-- Value of the local `used` of line 161 (the cycle tags are ASCII, so
`strlen` is the number of characters). -/
def used (s : State) : Nat :=
  2 + (if s.pumpOn then 3 else 4) + 4 + 1 + s.cycleTag.length

/-- Characters printed on display row 2 by one refresh (lines 150-162). -/
def renderRow2 (s : State) (el : Nat) : List Char :=
  let mm := minutes s el
  let ss := seconds s el
  "P:".toList ++ (if s.pumpOn then "ON " else "OFF").toList
    ++ (if mm < 10 then "0" else "").toList ++ printNat mm
    ++ [':']
    ++ (if ss < 10 then "0" else "").toList ++ printNat ss
    ++ [' ']
    ++ s.cycleTag.toList
    ++ List.replicate (16 - used s) ' '

/-- Display block of `loop` (lines 131-163). `el` is the local `elapsed` of line
113, computed before the pump block ran. Row 1 (the formatted temperature and
humidity) is not modelled. -/
def lcdBlock (s : State) (now el : Nat) : State :=
  if 500 ≤ sub32 now s.lastLcd then
    let s1 := { s with lastLcd := now }
    { s1 with row2 := renderRow2 s1 el }
  else s

/-- Backlight block of `loop` (lines 165-178). `button` is the level read on
the button pin (`LOW` is pressed), `tPress` the clock value read at line 171
and `tIdle` the one read at line 175. -/
def backlightBlock (s : State) (button : Level) (tPress tIdle : Nat) : State :=
  let s1 :=
    if button = Level.LOW then
      let a := if s.backlightOn = false then
          { s with lcdBacklight := some true, backlightOn := true }
        else s
      { a with backlightTimerStart := tPress }
    else s
  if s1.backlightOn = true ∧ BACKLIGHT_TIMEOUT ≤ idle s1 tIdle then
    { s1 with lcdBacklight := some false, backlightOn := false }
  else s1

/-- What one iteration of `loop` reads from its environment, in program order:
the clock at line 92, the sensor (used only when a poll is due), the clock
inside `switchPump` (used only when the phase changes), the button pin, and the
clock at lines 171 and 175. -/
structure LoopIn where
  now : Nat
  hum : Flt
  temp : Flt
  tSwitch : Nat
  button : Level
  tPress : Nat
  tIdle : Nat

/-- Function `loop` (lines 90-179). -/
def loop (s : State) (i : LoopIn) : State :=
  let s1 := sensorBlock s i.now i.hum i.temp
  let el := elapsed s1 i.now
  let s2 := pumpBlock s1 i.now i.tSwitch
  let s3 := lcdBlock s2 i.now el
  backlightBlock s3 i.button i.tPress i.tIdle

/-- An iteration that reads the same clock value `t` at each of its clock
reads. -/
def atTime (t : Nat) (h temp : Flt) (button : Level) : LoopIn where
  now := t % U32
  hum := h
  temp := temp
  tSwitch := t % U32
  button := button
  tPress := t % U32
  tIdle := t % U32

/-- State after a sequence of iterations of `loop`. -/
def run (s : State) : List LoopIn → State
  | [] => s
  | i :: is => run (loop s i) is

/-! ## Notions used to state the properties -/

/-- The cycle agrees with the hot latch: the triple `(onMs, offMs, cycleTag)`
is the hot one when `hotDetected` is set and the cool one when it is clear. -/
def CycleOk (s : State) : Prop :=
  (s.onMs, s.offMs, s.cycleTag)
    = if s.hotDetected = true then (HOT_ON_MS, HOT_OFF_MS, "20/10")
      else (COOL_ON_MS, COOL_OFF_MS, "15/15")

instance (s : State) : Decidable (CycleOk s) := by
  unfold CycleOk
  infer_instance

/-- The sensor read of iteration `i` succeeds from state `s`: a poll is due and
both values returned are numbers (the conditions of lines 95 and 100). -/
def pollSucceeds (s : State) (i : LoopIn) : Bool :=
  decide (DHT11_READ_TIMEOUT ≤ sub32 i.now s.lastSensorRead) && !i.hum.isnan && !i.temp.isnan

/-- Some sensor read succeeds along the iterations `is` started from `s`. -/
def everSucceeded (s : State) : List LoopIn → Bool
  | [] => false
  | i :: is => pollSucceeds s i || everSucceeded (loop s i) is

/-- Variant of `switchPump` without its final call of `updateCycle`. -/
def switchPumpPlain (s : State) (turnOn : Bool) (t : Nat) : State :=
  let s1 := { s with pumpOn := turnOn }
  let s2 := { s1 with
    relayWrites := (if turnOn then RELAY_ON_LEVEL else RELAY_ON_LEVEL.not) :: s1.relayWrites }
  { s2 with stateStarted := t }

/-- Variant of the pump timing block that switches with `switchPumpPlain`. -/
def pumpBlockPlain (s : State) (now tSwitch : Nat) : State :=
  if s.pumpOn = true ∧ s.onMs ≤ elapsed s now then
    switchPumpPlain (updateCycle (relatch s)) false tSwitch
  else if s.pumpOn = false ∧ s.offMs ≤ elapsed s now then
    switchPumpPlain (updateCycle (relatch s)) true tSwitch
  else s

/-- Countdown in seconds as the specification words it: the ceiling of
`(limit - elapsed) / 1000` over the integers, where `limit` is the duration of
the phase the pump is in and `elapsed` the time since that phase started. For
the divisor 1000 the ceiling is the floor of `(limit - elapsed + 999) / 1000`. -/
def countdownSpec (s : State) (now : Nat) : Int :=
  (((if s.pumpOn then s.onMs else s.offMs : Nat) : Int) - (elapsed s now : Int) + 999) / 1000

/-! ## Cycle selection -/

/-- C1: `updateCycle` sets the cycle to (1,200,000 ms, 600,000 ms, "20/10")
when `hotDetected` is true and to (900,000 ms, 900,000 ms, "15/15") when it is
false, and changes no other variable and no output. -/
theorem updateCycle_sets_cycle_only (s : State) :
    ((updateCycle s).onMs, (updateCycle s).offMs, (updateCycle s).cycleTag)
        = (if s.hotDetected = true then (1200000, 600000, "20/10")
            else (900000, 900000, "15/15"))
      ∧ (updateCycle s).pumpOn = s.pumpOn
      ∧ (updateCycle s).stateStarted = s.stateStarted
      ∧ (updateCycle s).hotDetected = s.hotDetected
      ∧ (updateCycle s).lastTemp = s.lastTemp
      ∧ (updateCycle s).lastHum = s.lastHum
      ∧ (updateCycle s).lastSensorRead = s.lastSensorRead
      ∧ (updateCycle s).lastLcd = s.lastLcd
      ∧ (updateCycle s).backlightOn = s.backlightOn
      ∧ (updateCycle s).backlightTimerStart = s.backlightTimerStart
      ∧ (updateCycle s).relayWrites = s.relayWrites
      ∧ (updateCycle s).lcdBacklight = s.lcdBacklight
      ∧ (updateCycle s).row2 = s.row2 := by
  unfold updateCycle
  cases hhot : s.hotDetected <;> simp [HOT_ON_MS, HOT_OFF_MS, COOL_ON_MS, COOL_OFF_MS]

/-- C9: calling `updateCycle` twice in a row gives the same state as calling
it once; in particular the second call changes neither the cycle nor the pump
phase nor the level driven on the relay pin. -/
theorem updateCycle_idempotent (s : State) :
    updateCycle (updateCycle s) = updateCycle s
      ∧ (updateCycle (updateCycle s)).onMs = (updateCycle s).onMs
      ∧ (updateCycle (updateCycle s)).offMs = (updateCycle s).offMs
      ∧ (updateCycle (updateCycle s)).cycleTag = (updateCycle s).cycleTag
      ∧ (updateCycle (updateCycle s)).pumpOn = (updateCycle s).pumpOn
      ∧ (updateCycle (updateCycle s)).relayLevel = (updateCycle s).relayLevel
      ∧ (updateCycle (updateCycle s)).relayWrites = (updateCycle s).relayWrites := by
  have h : updateCycle (updateCycle s) = updateCycle s := by
    unfold updateCycle
    cases hhot : s.hotDetected <;> simp
  simp [h]

/-! ## Initialisation -/

/-- C10: after the global initialisers and `setup`, the pump phase is ON, the
relay pin is driven at the pump-on level, `hotDetected` is false, the cycle is
(900,000 ms, 900,000 ms, "15/15"), and the backlight is on with its idle timer
started at the clock value read during `setup`. -/
theorem setup_initial_state (tSwitch tBacklight : Nat) :
    (setup initState tSwitch tBacklight).pumpOn = true
      ∧ (setup initState tSwitch tBacklight).relayLevel = some RELAY_ON_LEVEL
      ∧ (setup initState tSwitch tBacklight).relayWrites = [Level.LOW]
      ∧ (setup initState tSwitch tBacklight).hotDetected = false
      ∧ (setup initState tSwitch tBacklight).onMs = 900000
      ∧ (setup initState tSwitch tBacklight).offMs = 900000
      ∧ (setup initState tSwitch tBacklight).cycleTag = "15/15"
      ∧ (setup initState tSwitch tBacklight).backlightOn = true
      ∧ (setup initState tSwitch tBacklight).lcdBacklight = some true
      ∧ (setup initState tSwitch tBacklight).backlightTimerStart = tBacklight
      ∧ (setup initState tSwitch tBacklight).stateStarted = tSwitch := by
  simp [setup, switchPump, updateCycle, initState, State.relayLevel, RELAY_ON_LEVEL,
    COOL_ON_MS, COOL_OFF_MS]

/-! ## Frame lemmas for the display and backlight blocks -/

theorem lcdBlock_core (s : State) (now el : Nat) :
    (lcdBlock s now el).pumpOn = s.pumpOn
      ∧ (lcdBlock s now el).stateStarted = s.stateStarted
      ∧ (lcdBlock s now el).hotDetected = s.hotDetected
      ∧ (lcdBlock s now el).onMs = s.onMs
      ∧ (lcdBlock s now el).offMs = s.offMs
      ∧ (lcdBlock s now el).cycleTag = s.cycleTag
      ∧ (lcdBlock s now el).lastTemp = s.lastTemp
      ∧ (lcdBlock s now el).lastHum = s.lastHum
      ∧ (lcdBlock s now el).relayWrites = s.relayWrites
      ∧ (lcdBlock s now el).backlightOn = s.backlightOn
      ∧ (lcdBlock s now el).backlightTimerStart = s.backlightTimerStart := by
  unfold lcdBlock
  split <;> simp

theorem backlightBlock_core (s : State) (b : Level) (tp ti : Nat) :
    (backlightBlock s b tp ti).pumpOn = s.pumpOn
      ∧ (backlightBlock s b tp ti).stateStarted = s.stateStarted
      ∧ (backlightBlock s b tp ti).hotDetected = s.hotDetected
      ∧ (backlightBlock s b tp ti).onMs = s.onMs
      ∧ (backlightBlock s b tp ti).offMs = s.offMs
      ∧ (backlightBlock s b tp ti).cycleTag = s.cycleTag
      ∧ (backlightBlock s b tp ti).lastTemp = s.lastTemp
      ∧ (backlightBlock s b tp ti).lastHum = s.lastHum
      ∧ (backlightBlock s b tp ti).relayWrites = s.relayWrites := by
  unfold backlightBlock
  cases b <;> cases hb : s.backlightOn <;> simp <;> split <;> simp

theorem sensorBlock_backlight (s : State) (now : Nat) (h t : Flt) :
    (sensorBlock s now h t).backlightOn = s.backlightOn
      ∧ (sensorBlock s now h t).backlightTimerStart = s.backlightTimerStart
      ∧ (sensorBlock s now h t).relayWrites = s.relayWrites := by
  simp only [sensorBlock, updateCycle]
  split_ifs <;> simp

theorem pumpBlock_backlight (s : State) (now t : Nat) :
    (pumpBlock s now t).backlightOn = s.backlightOn
      ∧ (pumpBlock s now t).backlightTimerStart = s.backlightTimerStart := by
  simp only [pumpBlock, switchPump, updateCycle, relatch]
  split_ifs <;> simp

/-- The part of `loop` before the display and backlight blocks decides the
pump variables, the latch, the cycle and the recorded reading. -/
theorem loop_core (s : State) (i : LoopIn) :
    (loop s i).pumpOn = (pumpBlock (sensorBlock s i.now i.hum i.temp) i.now i.tSwitch).pumpOn
      ∧ (loop s i).stateStarted
          = (pumpBlock (sensorBlock s i.now i.hum i.temp) i.now i.tSwitch).stateStarted
      ∧ (loop s i).hotDetected
          = (pumpBlock (sensorBlock s i.now i.hum i.temp) i.now i.tSwitch).hotDetected
      ∧ (loop s i).onMs = (pumpBlock (sensorBlock s i.now i.hum i.temp) i.now i.tSwitch).onMs
      ∧ (loop s i).offMs = (pumpBlock (sensorBlock s i.now i.hum i.temp) i.now i.tSwitch).offMs
      ∧ (loop s i).cycleTag
          = (pumpBlock (sensorBlock s i.now i.hum i.temp) i.now i.tSwitch).cycleTag
      ∧ (loop s i).lastTemp
          = (pumpBlock (sensorBlock s i.now i.hum i.temp) i.now i.tSwitch).lastTemp
      ∧ (loop s i).lastHum
          = (pumpBlock (sensorBlock s i.now i.hum i.temp) i.now i.tSwitch).lastHum
      ∧ (loop s i).relayWrites
          = (pumpBlock (sensorBlock s i.now i.hum i.temp) i.now i.tSwitch).relayWrites := by
  unfold loop
  simp only [backlightBlock_core, lcdBlock_core, and_self]

/-- Effect of a phase change on the latch, the cycle and the phase. -/
theorem switch_after_relatch (s : State) (turnOn : Bool) (t : Nat) :
    (switchPump (updateCycle (relatch s)) turnOn t).hotDetected = s.lastTemp.ge TEMP_THRESHOLD
      ∧ ((switchPump (updateCycle (relatch s)) turnOn t).onMs,
          (switchPump (updateCycle (relatch s)) turnOn t).offMs,
          (switchPump (updateCycle (relatch s)) turnOn t).cycleTag)
        = (if s.lastTemp.ge TEMP_THRESHOLD = true then (1200000, 600000, "20/10")
            else (900000, 900000, "15/15"))
      ∧ (switchPump (updateCycle (relatch s)) turnOn t).pumpOn = turnOn
      ∧ (switchPump (updateCycle (relatch s)) turnOn t).stateStarted = t
      ∧ (switchPump (updateCycle (relatch s)) turnOn t).lastTemp = s.lastTemp
      ∧ (switchPump (updateCycle (relatch s)) turnOn t).lastHum = s.lastHum
      ∧ (switchPump (updateCycle (relatch s)) turnOn t).relayWrites
        = (if turnOn = true then Level.LOW else Level.HIGH) :: s.relayWrites := by
  unfold switchPump updateCycle relatch
  cases hge : s.lastTemp.ge TEMP_THRESHOLD <;> cases turnOn <;>
    simp [hge, HOT_ON_MS, HOT_OFF_MS, COOL_ON_MS, COOL_OFF_MS, RELAY_ON_LEVEL, Level.not]

/-- Unsigned subtraction undoes a wrapped addition. -/
theorem sub32_add_wrap (s d : Nat) (hd : d < 4294967296) :
    sub32 ((s + d) % 4294967296) s = d := by
  unfold sub32 U32
  omega

theorem sub32_self (a : Nat) : sub32 a a = 0 := by
  unfold sub32 U32
  omega

/-- A due poll with a valid reading at or above the threshold, taken while the
latch is clear: the sensor block records the reading and selects the hot
cycle. -/
theorem sensorBlock_escalates (s : State) (now : Nat) (h t : Flt)
    (hcold : s.hotDetected = false)
    (hdue : DHT11_READ_TIMEOUT ≤ sub32 now s.lastSensorRead)
    (hh : h.isnan = false) (ht : t.isnan = false)
    (hhot : t.ge TEMP_THRESHOLD = true) :
    sensorBlock s now h t
      = { s with lastSensorRead := now, lastHum := h, lastTemp := t, hotDetected := true,
                 onMs := HOT_ON_MS, offMs := HOT_OFF_MS, cycleTag := "20/10" } := by
  simp [sensorBlock, updateCycle, hcold, hdue, hh, ht, hhot]

/-- The pump block keeps a hot cycle hot when the recorded temperature is at or
above the threshold. -/
theorem pumpBlock_keeps_hot (s : State) (now t : Nat)
    (hlatch : s.hotDetected = true) (hon : s.onMs = 1200000) (hoff : s.offMs = 600000)
    (htag : s.cycleTag = "20/10") (htemp : s.lastTemp.ge TEMP_THRESHOLD = true) :
    (pumpBlock s now t).hotDetected = true
      ∧ (pumpBlock s now t).onMs = 1200000
      ∧ (pumpBlock s now t).offMs = 600000
      ∧ (pumpBlock s now t).cycleTag = "20/10" := by
  have hsw := fun b => switch_after_relatch s b t
  simp only [htemp, if_true, Prod.mk.injEq] at hsw
  unfold pumpBlock
  split_ifs
  · exact ⟨(hsw false).1, (hsw false).2.1.1, (hsw false).2.1.2.1, (hsw false).2.1.2.2⟩
  · exact ⟨(hsw true).1, (hsw true).2.1.1, (hsw true).2.1.2.1, (hsw true).2.1.2.2⟩
  · exact ⟨hlatch, hon, hoff, htag⟩

/-! ## Hot escalation and reversion -/

/-- C2 (P1): from a state with `hotDetected = false`, in either pump phase, a
due sensor poll that returns a valid reading with temperature >= 30.0 makes the
cycle (1,200,000 ms, 600,000 ms, "20/10") with `hotDetected = true` as soon as
the sensor block has run, and the cycle is still that one (with the latch set)
at the end of the same iteration of `loop`, whether or not the pump block
changes phase in it. -/
theorem hot_escalation (s : State) (i : LoopIn)
    (hcold : s.hotDetected = false)
    (hdue : 10000 ≤ sub32 i.now s.lastSensorRead)
    (hh : i.hum.isnan = false) (ht : i.temp.isnan = false)
    (hhot : i.temp.ge (Flt.fin 30) = true) :
    ((sensorBlock s i.now i.hum i.temp).hotDetected = true
        ∧ (sensorBlock s i.now i.hum i.temp).onMs = 1200000
        ∧ (sensorBlock s i.now i.hum i.temp).offMs = 600000
        ∧ (sensorBlock s i.now i.hum i.temp).cycleTag = "20/10"
        ∧ (sensorBlock s i.now i.hum i.temp).pumpOn = s.pumpOn)
      ∧ ((loop s i).hotDetected = true
        ∧ (loop s i).onMs = 1200000
        ∧ (loop s i).offMs = 600000
        ∧ (loop s i).cycleTag = "20/10") := by
  have hs := sensorBlock_escalates s i.now i.hum i.temp hcold hdue hh ht hhot
  have hp := pumpBlock_keeps_hot (sensorBlock s i.now i.hum i.temp) i.now i.tSwitch
    (by rw [hs]) (by rw [hs]; rfl) (by rw [hs]; rfl) (by rw [hs]) (by rw [hs]; exact hhot)
  have hl := loop_core s i
  refine ⟨⟨by rw [hs], by rw [hs]; rfl, by rw [hs]; rfl, by rw [hs], by rw [hs]⟩, ?_⟩
  rw [hl.2.2.1, hl.2.2.2.1, hl.2.2.2.2.1, hl.2.2.2.2.2.1]
  exact hp

/-- Scenario A for C2: pump ON since t = 0, latch clear, a poll due at clock
value 0 returns Reading(32, 50). -/
theorem hot_escalation_witness :
    (loop { setup initState 0 0 with lastSensorRead := 4294957296 }
        (atTime 0 (Flt.fin 50) (Flt.fin 32) Level.HIGH)).pumpOn = true
      ∧ (loop { setup initState 0 0 with lastSensorRead := 4294957296 }
        (atTime 0 (Flt.fin 50) (Flt.fin 32) Level.HIGH)).hotDetected = true
      ∧ (loop { setup initState 0 0 with lastSensorRead := 4294957296 }
        (atTime 0 (Flt.fin 50) (Flt.fin 32) Level.HIGH)).onMs = 1200000
      ∧ (loop { setup initState 0 0 with lastSensorRead := 4294957296 }
        (atTime 0 (Flt.fin 50) (Flt.fin 32) Level.HIGH)).offMs = 600000
      ∧ (loop { setup initState 0 0 with lastSensorRead := 4294957296 }
        (atTime 0 (Flt.fin 50) (Flt.fin 32) Level.HIGH)).cycleTag = "20/10" :=
  have h := (hot_escalation { setup initState 0 0 with lastSensorRead := 4294957296 }
    (atTime 0 (Flt.fin 50) (Flt.fin 32) Level.HIGH)
    (by decide) (by decide) (by decide) (by decide) (by decide)).2
  ⟨by decide, h.1, h.2.1, h.2.2.1, h.2.2.2⟩

/-- C3 (P2): whenever the pump block changes phase, in either direction, the
latch afterwards is exactly `lastTemp >= 30.0` on the recorded temperature,
whatever it was before, and the cycle is the one `updateCycle` selects for that
value; so a recorded temperature below 30.0, or none at all (NaN), gives
(900,000 ms, 900,000 ms, "15/15"). -/
theorem reversion_at_transition (s : State) (now t : Nat)
    (hfire : (s.pumpOn = true ∧ s.onMs ≤ sub32 now s.stateStarted)
      ∨ (s.pumpOn = false ∧ s.offMs ≤ sub32 now s.stateStarted)) :
    (pumpBlock s now t).hotDetected = s.lastTemp.ge (Flt.fin 30)
      ∧ (pumpBlock s now t).lastTemp = s.lastTemp
      ∧ ((pumpBlock s now t).onMs, (pumpBlock s now t).offMs, (pumpBlock s now t).cycleTag)
        = (if s.lastTemp.ge (Flt.fin 30) = true then (1200000, 600000, "20/10")
            else (900000, 900000, "15/15"))
      ∧ (s.lastTemp.ge (Flt.fin 30) = false →
          ((pumpBlock s now t).onMs, (pumpBlock s now t).offMs, (pumpBlock s now t).cycleTag)
            = (900000, 900000, "15/15"))
      ∧ (s.lastTemp = Flt.nan → (pumpBlock s now t).hotDetected = false)
      ∧ (∀ q : ℚ, q < 30 → s.lastTemp = Flt.fin q → (pumpBlock s now t).hotDetected = false)
      ∧ (pumpBlock s now t).pumpOn = !s.pumpOn := by
  have key : (pumpBlock s now t).hotDetected = s.lastTemp.ge (Flt.fin 30)
      ∧ (pumpBlock s now t).lastTemp = s.lastTemp
      ∧ ((pumpBlock s now t).onMs, (pumpBlock s now t).offMs, (pumpBlock s now t).cycleTag)
        = (if s.lastTemp.ge (Flt.fin 30) = true then (1200000, 600000, "20/10")
            else (900000, 900000, "15/15"))
      ∧ (pumpBlock s now t).pumpOn = !s.pumpOn := by
    unfold pumpBlock elapsed
    rcases hfire with h | h
    · have hsw := switch_after_relatch s false t
      rw [if_pos h]
      exact ⟨hsw.1, hsw.2.2.2.2.1, hsw.2.1, by rw [hsw.2.2.1, h.1]; rfl⟩
    · have hsw := switch_after_relatch s true t
      have hno : ¬ (s.pumpOn = true ∧ s.onMs ≤ sub32 now s.stateStarted) := by
        intro hc
        rw [h.1] at hc
        exact Bool.noConfusion hc.1
      rw [if_neg hno, if_pos h]
      exact ⟨hsw.1, hsw.2.2.2.2.1, hsw.2.1, by rw [hsw.2.2.1, h.1]; rfl⟩
  refine ⟨key.1, key.2.1, key.2.2.1, ?_, ?_, ?_, key.2.2.2⟩
  · intro hlt
    rw [key.2.2.1, hlt]
    rfl
  · intro hnan
    rw [key.1, hnan]
    rfl
  · intro q hq hfin
    rw [key.1, hfin]
    simp [Flt.ge, hq]

/-- Scenario B for C3: pump ON under the hot cycle, 1,200,000 ms into the
phase, latest reading 28 degrees. -/
theorem reversion_at_transition_witness :
    (pumpBlock { setup initState 0 0 with
        hotDetected := true, onMs := 1200000, offMs := 600000, cycleTag := "20/10",
        lastTemp := Flt.fin 28, lastHum := Flt.fin 50 } 1200000 1200000).pumpOn = false
      ∧ (pumpBlock { setup initState 0 0 with
        hotDetected := true, onMs := 1200000, offMs := 600000, cycleTag := "20/10",
        lastTemp := Flt.fin 28, lastHum := Flt.fin 50 } 1200000 1200000).hotDetected = false
      ∧ ((pumpBlock { setup initState 0 0 with
        hotDetected := true, onMs := 1200000, offMs := 600000, cycleTag := "20/10",
        lastTemp := Flt.fin 28, lastHum := Flt.fin 50 } 1200000 1200000).onMs,
         (pumpBlock { setup initState 0 0 with
        hotDetected := true, onMs := 1200000, offMs := 600000, cycleTag := "20/10",
        lastTemp := Flt.fin 28, lastHum := Flt.fin 50 } 1200000 1200000).offMs,
         (pumpBlock { setup initState 0 0 with
        hotDetected := true, onMs := 1200000, offMs := 600000, cycleTag := "20/10",
        lastTemp := Flt.fin 28, lastHum := Flt.fin 50 } 1200000 1200000).cycleTag)
        = (900000, 900000, "15/15") :=
  have h := reversion_at_transition { setup initState 0 0 with
        hotDetected := true, onMs := 1200000, offMs := 600000, cycleTag := "20/10",
        lastTemp := Flt.fin 28, lastHum := Flt.fin 50 } 1200000 1200000
        (Or.inl (by decide))
  ⟨h.2.2.2.2.2.2, h.2.2.2.2.2.1 28 (by decide) rfl, h.2.2.2.1 (by decide)⟩

/-! ## Phase transitions -/

/-- C4: with `elapsed = (now - stateStarted) mod 2^32` and the cycle of the
state the pump block starts from, the block takes the pump from ON to OFF
exactly when `pumpOn` and `elapsed >= onMs`, from OFF to ON exactly when not
`pumpOn` and `elapsed >= offMs`, and otherwise leaves the state (so `pumpOn`,
`stateStarted`, `hotDetected` and the cycle) as it was; a change of phase sets
`stateStarted` to the clock value read in `switchPump`, and one iteration of
`loop` writes the relay pin at most once. -/
theorem transition_rule (s : State) (now t : Nat) :
    ((s.pumpOn = true ∧ (pumpBlock s now t).pumpOn = false)
        ↔ (s.pumpOn = true ∧ s.onMs ≤ sub32 now s.stateStarted))
      ∧ ((s.pumpOn = false ∧ (pumpBlock s now t).pumpOn = true)
        ↔ (s.pumpOn = false ∧ s.offMs ≤ sub32 now s.stateStarted))
      ∧ (¬ (s.pumpOn = true ∧ s.onMs ≤ sub32 now s.stateStarted)
          → ¬ (s.pumpOn = false ∧ s.offMs ≤ sub32 now s.stateStarted)
          → pumpBlock s now t = s)
      ∧ ((pumpBlock s now t).pumpOn ≠ s.pumpOn
          → (pumpBlock s now t).stateStarted = t
            ∧ (pumpBlock s now t).relayWrites
              = (if s.pumpOn = true then Level.HIGH else Level.LOW) :: s.relayWrites)
      ∧ ((pumpBlock s now t).relayWrites = s.relayWrites
          ∨ ∃ l, (pumpBlock s now t).relayWrites = l :: s.relayWrites)
      ∧ (∀ i : LoopIn, (loop s i).relayWrites.length ≤ s.relayWrites.length + 1) := by
  have hblock : ∀ (u : State) (n v : Nat),
      ((u.pumpOn = true ∧ u.onMs ≤ sub32 n u.stateStarted)
          ∧ (pumpBlock u n v).pumpOn = false ∧ (pumpBlock u n v).stateStarted = v
          ∧ (pumpBlock u n v).relayWrites = Level.HIGH :: u.relayWrites)
        ∨ ((u.pumpOn = false ∧ u.offMs ≤ sub32 n u.stateStarted)
          ∧ (pumpBlock u n v).pumpOn = true ∧ (pumpBlock u n v).stateStarted = v
          ∧ (pumpBlock u n v).relayWrites = Level.LOW :: u.relayWrites)
        ∨ (¬ (u.pumpOn = true ∧ u.onMs ≤ sub32 n u.stateStarted)
          ∧ ¬ (u.pumpOn = false ∧ u.offMs ≤ sub32 n u.stateStarted)
          ∧ pumpBlock u n v = u) := by
    intro u n v
    unfold pumpBlock elapsed
    by_cases h1 : u.pumpOn = true ∧ u.onMs ≤ sub32 n u.stateStarted
    · have hsw := switch_after_relatch u false v
      rw [if_pos h1]
      exact Or.inl ⟨h1, hsw.2.2.1, hsw.2.2.2.1, by simpa using hsw.2.2.2.2.2.2⟩
    · by_cases h2 : u.pumpOn = false ∧ u.offMs ≤ sub32 n u.stateStarted
      · have hsw := switch_after_relatch u true v
        rw [if_neg h1, if_pos h2]
        exact Or.inr (Or.inl ⟨h2, hsw.2.2.1, hsw.2.2.2.1, by simpa using hsw.2.2.2.2.2.2⟩)
      · rw [if_neg h1, if_neg h2]
        exact Or.inr (Or.inr ⟨h1, h2, rfl⟩)
  refine ⟨?_, ?_, ?_, ?_, ?_, ?_⟩
  · rcases hblock s now t with ⟨h, hp, -, -⟩ | ⟨h, hp, -, -⟩ | ⟨h1, -, he⟩
    · exact ⟨fun _ => h, fun _ => ⟨h.1, hp⟩⟩
    · constructor
      · intro hc
        rw [h.1] at hc
        exact Bool.noConfusion hc.1
      · intro hc
        rw [h.1] at hc
        exact Bool.noConfusion hc.1
    · constructor
      · intro hc
        rw [he] at hc
        rw [hc.2] at hc
        exact Bool.noConfusion hc.1
      · intro hc
        exact absurd hc h1
  · rcases hblock s now t with ⟨h, hp, -, -⟩ | ⟨h, hp, -, -⟩ | ⟨-, h2, he⟩
    · constructor
      · intro hc
        rw [h.1] at hc
        exact Bool.noConfusion hc.1
      · intro hc
        rw [h.1] at hc
        exact Bool.noConfusion hc.1
    · exact ⟨fun _ => h, fun _ => ⟨h.1, hp⟩⟩
    · constructor
      · intro hc
        rw [he] at hc
        rw [hc.2] at hc
        exact Bool.noConfusion hc.1
      · intro hc
        exact absurd hc h2
  · intro h1 h2
    rcases hblock s now t with ⟨h, -⟩ | ⟨h, -⟩ | ⟨-, -, he⟩
    · exact absurd h h1
    · exact absurd h h2
    · exact he
  · intro hne
    rcases hblock s now t with ⟨h, -, hs, hw⟩ | ⟨h, -, hs, hw⟩ | ⟨-, -, he⟩
    · exact ⟨hs, by rw [hw, if_pos h.1]⟩
    · refine ⟨hs, ?_⟩
      rw [hw, h.1]
      rfl
    · rw [he] at hne
      exact absurd rfl hne
  · rcases hblock s now t with ⟨-, -, -, hw⟩ | ⟨-, -, -, hw⟩ | ⟨-, -, he⟩
    · exact Or.inr ⟨_, hw⟩
    · exact Or.inr ⟨_, hw⟩
    · exact Or.inl (by rw [he])
  · intro i
    rw [(loop_core s i).2.2.2.2.2.2.2.2]
    have hsens := (sensorBlock_backlight s i.now i.hum i.temp).2.2
    rcases hblock (sensorBlock s i.now i.hum i.temp) i.now i.tSwitch
      with ⟨-, -, -, hw⟩ | ⟨-, -, -, hw⟩ | ⟨-, -, he⟩
    · rw [hw, hsens]
      simp
    · rw [hw, hsens]
      simp
    · rw [he, hsens]
      omega

/-! ## Sensor failures -/

/-- C5 (P4): a sensor poll whose result is invalid (temperature NaN or humidity
NaN, also when only one of them is) leaves `lastTemp`, `lastHum`, `hotDetected`
and the cycle as they were; the sensor block returns a state all the same, with
the poll time recorded when the poll was due. -/
theorem stale_on_failure (s : State) (now : Nat) (h t : Flt)
    (hbad : h.isnan = true ∨ t.isnan = true) :
    (sensorBlock s now h t).lastTemp = s.lastTemp
      ∧ (sensorBlock s now h t).lastHum = s.lastHum
      ∧ (sensorBlock s now h t).hotDetected = s.hotDetected
      ∧ (sensorBlock s now h t).onMs = s.onMs
      ∧ (sensorBlock s now h t).offMs = s.offMs
      ∧ (sensorBlock s now h t).cycleTag = s.cycleTag
      ∧ (10000 ≤ sub32 now s.lastSensorRead → (sensorBlock s now h t).lastSensorRead = now) := by
  have hinv : ¬ (h.isnan = false ∧ t.isnan = false) := by
    rintro ⟨h1, h2⟩
    rcases hbad with hb | hb
    · rw [h1] at hb
      exact Bool.noConfusion hb
    · rw [h2] at hb
      exact Bool.noConfusion hb
  simp only [sensorBlock, DHT11_READ_TIMEOUT, if_neg hinv]
  split_ifs with hdue
  · simp
  · simp [hdue]

/-- A due poll in which only the humidity is NaN, for C5: the valid
temperature of 32 degrees is not recorded and the latch stays clear. -/
theorem stale_on_failure_witness :
    (sensorBlock (setup initState 0 0) 10000 Flt.nan (Flt.fin 32)).lastTemp = Flt.nan
      ∧ (sensorBlock (setup initState 0 0) 10000 Flt.nan (Flt.fin 32)).lastHum = Flt.nan
      ∧ (sensorBlock (setup initState 0 0) 10000 Flt.nan (Flt.fin 32)).hotDetected = false
      ∧ (sensorBlock (setup initState 0 0) 10000 Flt.nan (Flt.fin 32)).cycleTag = "15/15"
      ∧ (sensorBlock (setup initState 0 0) 10000 Flt.nan (Flt.fin 32)).lastSensorRead = 10000 :=
  have h := stale_on_failure (setup initState 0 0) 10000 Flt.nan (Flt.fin 32) (Or.inl rfl)
  ⟨h.1, h.2.1, h.2.2.1, h.2.2.2.2.2.1, h.2.2.2.2.2.2 (by decide)⟩

/-! ## Clock wraparound -/

/-- C6 (P5): for a 32-bit phase start `p` and a true duration `d < 2^32`, when
the clock reads `(p + d) mod 2^32` the unsigned subtraction of the sketch
returns `d`, also when `p + d >= 2^32`; this holds for the pump phase time of
line 113 and for the backlight idle time of line 175. -/
theorem elapsed_wraparound (p d now : Nat)
    (_hp : p < 4294967296) (hd : d < 4294967296) (hnow : now = (p + d) % 4294967296) :
    sub32 now p = d
      ∧ (∀ s : State, s.stateStarted = p → elapsed s now = d)
      ∧ (∀ s : State, s.backlightTimerStart = p → idle s now = d) := by
  have hsub : sub32 now p = d := by
    rw [hnow]
    exact sub32_add_wrap p d hd
  refine ⟨hsub, ?_, ?_⟩
  · intro s hs
    rw [elapsed, hs, hsub]
  · intro s hs
    rw [idle, hs, hsub]

/-- A wrapped instance of C6: the phase started 296 ms before the counter
wrapped and 1000 ms have passed, so the clock reads 704. -/
theorem elapsed_wraparound_witness :
    4294967296 ≤ 4294967000 + 1000
      ∧ elapsed { setup initState 4294967000 0 with stateStarted := 4294967000 } 704 = 1000 :=
  ⟨by decide,
    (elapsed_wraparound 4294967000 1000 704 (by decide) (by decide) (by decide)).2.1
      { setup initState 4294967000 0 with stateStarted := 4294967000 } rfl⟩

/-! ## Backlight -/

/-- Backlight block without a button press: the timer start is kept and the
backlight stays on exactly when it was on and the idle time is below the
timeout. -/
theorem backlightBlock_released (s : State) (tp ti : Nat) :
    (backlightBlock s Level.HIGH tp ti).backlightTimerStart = s.backlightTimerStart
      ∧ (backlightBlock s Level.HIGH tp ti).backlightOn
        = (s.backlightOn && decide (sub32 ti s.backlightTimerStart < 60000)) := by
  have hlvl : ¬ Level.HIGH = Level.LOW := by decide
  simp only [backlightBlock, idle, BACKLIGHT_TIMEOUT, if_neg hlvl]
  by_cases h : s.backlightOn = true ∧ 60 * 1000 ≤ sub32 ti s.backlightTimerStart
  · rw [if_pos h]
    have hlt : ¬ sub32 ti s.backlightTimerStart < 60000 := by omega
    simp [hlt]
  · rw [if_neg h]
    cases hb : s.backlightOn
    · simp
    · have hlt : sub32 ti s.backlightTimerStart < 60000 := by
        by_contra hc
        exact h ⟨hb, by omega⟩
      simp [hlt]

/-- Backlight block with the button pressed, both clock reads returning
`now`. -/
theorem backlightBlock_pressed (s : State) (now : Nat) :
    (backlightBlock s Level.LOW now now).backlightTimerStart = now
      ∧ (backlightBlock s Level.LOW now now).backlightOn = true := by
  have hidle : ∀ u : State, ¬ (u.backlightOn = true ∧ 60 * 1000 ≤ sub32 now now) := by
    intro u hc
    rw [sub32_self] at hc
    omega
  simp only [backlightBlock, idle, BACKLIGHT_TIMEOUT, if_true]
  rw [if_neg (hidle _)]
  cases hb : s.backlightOn <;> simp [hb]

/-- Display command of the backlight block without a button press: "off" is
sent exactly when the backlight was on and the idle time has reached the
timeout, and nothing is sent otherwise. -/
theorem backlightBlock_released_display (s : State) (tp ti : Nat) :
    (backlightBlock s Level.HIGH tp ti).lcdBacklight
      = if s.backlightOn = true ∧ 60000 ≤ sub32 ti s.backlightTimerStart then some false
        else s.lcdBacklight := by
  have hlvl : ¬ Level.HIGH = Level.LOW := by decide
  simp only [backlightBlock, idle, BACKLIGHT_TIMEOUT, if_neg hlvl, Nat.reduceMul]
  by_cases h : s.backlightOn = true ∧ 60000 ≤ sub32 ti s.backlightTimerStart
  · rw [if_pos h, if_pos h]
  · rw [if_neg h, if_neg h]

/-- Display command of the backlight block with the button pressed, both clock
reads returning `now`: "on" is sent when the backlight was off, and nothing is
sent when it was on. -/
theorem backlightBlock_pressed_display (s : State) (now : Nat) :
    (backlightBlock s Level.LOW now now).lcdBacklight
      = if s.backlightOn = true then s.lcdBacklight else some true := by
  have hidle : ∀ u : State, ¬ (u.backlightOn = true ∧ 60 * 1000 ≤ sub32 now now) := by
    intro u hc
    rw [sub32_self] at hc
    omega
  simp only [backlightBlock, idle, BACKLIGHT_TIMEOUT, if_true]
  rw [if_neg (hidle _)]
  cases hb : s.backlightOn <;> simp [hb]

/-- The backlight block keeps the display in step with the flag: when the last
command sent to the display agrees with `backlightOn` before the block, it does
so after it, for every button level and every pair of clock reads. -/
theorem backlightBlock_sync (s : State) (b : Level) (tp ti : Nat)
    (hsync : s.lcdBacklight = some s.backlightOn) :
    (backlightBlock s b tp ti).lcdBacklight = some (backlightBlock s b tp ti).backlightOn := by
  simp only [backlightBlock]
  cases b <;> cases hb : s.backlightOn <;> rw [hb] at hsync <;> simp [hb, hsync] <;>
    (try split_ifs) <;> simp_all

/-- C7 (P6): one backlight step at clock value `now` (the two clock reads of
the block return the same value). A backlight that is on is turned off exactly
when the button is not pressed and `(now - backlightTimerStart) mod 2^32` is at
least 60,000, and the display is then sent the command "off"; a pressed button
ends the step with the backlight on (the display is sent "on" when it was
off), the timer start equal to `now` and the idle time zero; a backlight that
is off stays off when the button is not pressed. In every case where the flag
does not change no command is sent, and a display that agreed with the flag
before the step agrees with it after the step. -/
theorem backlight_step (s : State) (now : Nat) (button : Level) :
    (s.backlightOn = true →
        ((backlightBlock s button now now).backlightOn = false
          ↔ (button = Level.HIGH ∧ 60000 ≤ sub32 now s.backlightTimerStart)))
      ∧ (button = Level.LOW →
          (backlightBlock s button now now).backlightOn = true
            ∧ (backlightBlock s button now now).backlightTimerStart = now
            ∧ idle (backlightBlock s button now now) now = 0)
      ∧ (s.backlightOn = false → button = Level.HIGH →
          (backlightBlock s button now now).backlightOn = false)
      ∧ (s.backlightOn = true → button = Level.HIGH →
          60000 ≤ sub32 now s.backlightTimerStart →
          (backlightBlock s button now now).lcdBacklight = some false)
      ∧ (s.backlightOn = true →
          ¬ (button = Level.HIGH ∧ 60000 ≤ sub32 now s.backlightTimerStart) →
          (backlightBlock s button now now).lcdBacklight = s.lcdBacklight)
      ∧ (button = Level.LOW →
          (backlightBlock s button now now).lcdBacklight
            = if s.backlightOn = true then s.lcdBacklight else some true)
      ∧ (s.backlightOn = false → button = Level.HIGH →
          (backlightBlock s button now now).lcdBacklight = s.lcdBacklight)
      ∧ (s.lcdBacklight = some s.backlightOn →
          (backlightBlock s button now now).lcdBacklight
            = some (backlightBlock s button now now).backlightOn) := by
  refine ⟨?_, ?_, ?_, ?_, ?_, ?_, ?_, ?_⟩
  · intro hon
    cases button
    · have hp := backlightBlock_pressed s now
      rw [hp.2]
      simp
    · have hr := backlightBlock_released s now now
      rw [hr.2, hon]
      simp
  · intro hb
    subst hb
    have hp := backlightBlock_pressed s now
    refine ⟨hp.2, hp.1, ?_⟩
    rw [idle, hp.1, sub32_self]
  · intro hoff hb
    subst hb
    have hr := backlightBlock_released s now now
    rw [hr.2, hoff]
    rfl
  · intro hon hb hidle
    subst hb
    rw [backlightBlock_released_display, if_pos ⟨hon, hidle⟩]
  · intro hon hno
    cases button
    · rw [backlightBlock_pressed_display, if_pos hon]
    · have hno2 : ¬ (s.backlightOn = true ∧ 60000 ≤ sub32 now s.backlightTimerStart) :=
        fun hc => hno ⟨rfl, hc.2⟩
      rw [backlightBlock_released_display, if_neg hno2]
  · intro hb
    subst hb
    exact backlightBlock_pressed_display s now
  · intro hoff hb
    subst hb
    have hno : ¬ (s.backlightOn = true ∧ 60000 ≤ sub32 now s.backlightTimerStart) := by
      intro hc
      rw [hoff] at hc
      exact Bool.noConfusion hc.1
    rw [backlightBlock_released_display, if_neg hno]
  · intro hsync
    exact backlightBlock_sync s button now now hsync

theorem sensorBlock_lcdBacklight (s : State) (now : Nat) (h t : Flt) :
    (sensorBlock s now h t).lcdBacklight = s.lcdBacklight := by
  simp only [sensorBlock, updateCycle]
  split_ifs <;> simp

theorem pumpBlock_lcdBacklight (s : State) (now t : Nat) :
    (pumpBlock s now t).lcdBacklight = s.lcdBacklight := by
  simp only [pumpBlock, switchPump, updateCycle, relatch]
  split_ifs <;> simp

theorem lcdBlock_lcdBacklight (s : State) (now el : Nat) :
    (lcdBlock s now el).lcdBacklight = s.lcdBacklight := by
  unfold lcdBlock
  split <;> simp

/-- The display agrees with the flag `backlightOn` after `setup` and after
every sequence of iterations of `loop`. -/
theorem display_sync_run (a b : Nat) (is : List LoopIn) :
    (run (setup initState a b) is).lcdBacklight
      = some (run (setup initState a b) is).backlightOn := by
  have hstep : ∀ (s : State) (i : LoopIn), s.lcdBacklight = some s.backlightOn →
      (loop s i).lcdBacklight = some (loop s i).backlightOn := by
    intro s i hs
    unfold loop
    apply backlightBlock_sync
    rw [lcdBlock_lcdBacklight, pumpBlock_lcdBacklight, sensorBlock_lcdBacklight,
      (lcdBlock_core _ _ _).2.2.2.2.2.2.2.2.2.1, (pumpBlock_backlight _ _ _).1,
      (sensorBlock_backlight _ _ _ _).1]
    exact hs
  have hrun : ∀ (l : List LoopIn) (s : State), s.lcdBacklight = some s.backlightOn →
      (run s l).lcdBacklight = some (run s l).backlightOn := by
    intro l
    induction l with
    | nil => exact fun s hs => hs
    | cons i rest ih => exact fun s hs => ih (loop s i) (hstep s i hs)
  exact hrun is _ rfl

/-- One iteration of `loop` with the button released keeps the timer start; the
backlight stays on exactly when it was on and the idle time read at line 175 is
below the timeout, and the display is sent "off" exactly when it goes off. The
other clock reads of the iteration play no part. -/
theorem loop_released (s : State) (i : LoopIn) (hb : i.button = Level.HIGH) :
    (loop s i).backlightTimerStart = s.backlightTimerStart
      ∧ (loop s i).backlightOn
        = (s.backlightOn && decide (sub32 i.tIdle s.backlightTimerStart < 60000))
      ∧ (loop s i).lcdBacklight
        = (if s.backlightOn = true ∧ 60000 ≤ sub32 i.tIdle s.backlightTimerStart
            then some false else s.lcdBacklight) := by
  unfold loop
  rw [hb]
  refine ⟨?_, ?_, ?_⟩
  · rw [(backlightBlock_released _ _ _).1, (lcdBlock_core _ _ _).2.2.2.2.2.2.2.2.2.2,
      (pumpBlock_backlight _ _ _).2, (sensorBlock_backlight _ _ _ _).2.1]
  · rw [(backlightBlock_released _ _ _).2, (lcdBlock_core _ _ _).2.2.2.2.2.2.2.2.2.2,
      (lcdBlock_core _ _ _).2.2.2.2.2.2.2.2.2.1,
      (pumpBlock_backlight _ _ _).2, (pumpBlock_backlight _ _ _).1,
      (sensorBlock_backlight _ _ _ _).2.1, (sensorBlock_backlight _ _ _ _).1]
  · rw [backlightBlock_released_display, (lcdBlock_core _ _ _).2.2.2.2.2.2.2.2.2.2,
      (lcdBlock_core _ _ _).2.2.2.2.2.2.2.2.2.1,
      (pumpBlock_backlight _ _ _).2, (pumpBlock_backlight _ _ _).1,
      (sensorBlock_backlight _ _ _ _).2.1, (sensorBlock_backlight _ _ _ _).1,
      lcdBlock_lcdBacklight, pumpBlock_lcdBacklight, sensorBlock_lcdBacklight]

/-- Unsigned subtraction of two wrapped clock values less than `2^32` apart. -/
theorem sub32_unwrapped (p t : Nat) (h1 : p ≤ t) (h2 : t < p + 4294967296) :
    sub32 (t % U32) (p % U32) = t - p := by
  unfold sub32 U32
  omega

/-- A run with the button released, each iteration paired with the time `t` at
which its backlight block reads the clock: the backlight is on at the end
exactly when it was on at the start and every iteration came before the
timeout, and the display has been sent "off" exactly when it went off. -/
theorem run_released (p : Nat) (rs : List (Nat × LoopIn)) (s : State)
    (hstart : s.backlightTimerStart = p % U32)
    (hreleased : ∀ r ∈ rs, r.2.button = Level.HIGH)
    (hclock : ∀ r ∈ rs, r.2.tIdle = r.1 % U32)
    (hrange : ∀ r ∈ rs, p ≤ r.1 ∧ r.1 < p + 4294967296) :
    (run s (rs.map Prod.snd)).backlightOn
        = (s.backlightOn && rs.all fun r => decide (r.1 - p < 60000))
      ∧ (run s (rs.map Prod.snd)).lcdBacklight
        = (if (s.backlightOn && !(rs.all fun r => decide (r.1 - p < 60000))) = true
            then some false else s.lcdBacklight) := by
  induction rs generalizing s with
  | nil => simp [run]
  | cons r rest ih =>
    have hr := hrange r (List.mem_cons_self r rest)
    have hstep := loop_released s r.2 (hreleased r (List.mem_cons_self r rest))
    have hsub : sub32 r.2.tIdle s.backlightTimerStart = r.1 - p := by
      rw [hclock r (List.mem_cons_self r rest), hstart]
      exact sub32_unwrapped p r.1 hr.1 hr.2
    rw [hsub] at hstep
    have hnext := ih (loop s r.2) (by rw [hstep.1, hstart])
      (fun x hx => hreleased x (List.mem_cons_of_mem r hx))
      (fun x hx => hclock x (List.mem_cons_of_mem r hx))
      (fun x hx => hrange x (List.mem_cons_of_mem r hx))
    have hrun : run s ((r :: rest).map Prod.snd) = run (loop s r.2) (rest.map Prod.snd) := rfl
    rw [hrun, hnext.1, hnext.2, hstep.2.1, hstep.2.2, List.all_cons]
    generalize (rest.all fun r => decide (r.1 - p < 60000)) = others
    by_cases hlt : r.1 - p < 60000
    · have hge : ¬ 60000 ≤ r.1 - p := by omega
      cases hon : s.backlightOn <;> cases others <;> simp [hlt, hge]
    · have hge : 60000 ≤ r.1 - p := by omega
      cases hon : s.backlightOn <;> cases others <;> simp [hlt, hge]

/-- C8: from a state with the backlight on and the idle timer started at `p`,
along any sequence of iterations of `loop` with the button released, whose
backlight blocks read the clock (line 175) at non-decreasing times within
`2^32` ms of `p`, whatever the other clock reads and the sensor return: after
every iteration whose time `t` has `t - p < 60,000` the backlight is on and no
command has been sent to the display, and after the first iteration with
`t - p >= 60,000` and after every later one the backlight is off and the
display has been sent "off". -/
theorem backlight_timeout_run (s : State) (p : Nat) (rs : List (Nat × LoopIn))
    (hon : s.backlightOn = true)
    (hstart : s.backlightTimerStart = p % 4294967296)
    (hreleased : ∀ r ∈ rs, r.2.button = Level.HIGH)
    (hclock : ∀ r ∈ rs, r.2.tIdle = r.1 % 4294967296)
    (hsorted : rs.Pairwise fun a b => a.1 ≤ b.1)
    (hrange : ∀ r ∈ rs, p ≤ r.1 ∧ r.1 < p + 4294967296) :
    (∀ pre r post, rs = pre ++ r :: post → r.1 - p < 60000 →
        (run s ((pre ++ [r]).map Prod.snd)).backlightOn = true
          ∧ (run s ((pre ++ [r]).map Prod.snd)).lcdBacklight = s.lcdBacklight)
      ∧ (∀ pre r later post, rs = pre ++ r :: (later ++ post) → 60000 ≤ r.1 - p →
        (run s ((pre ++ r :: later).map Prod.snd)).backlightOn = false
          ∧ (run s ((pre ++ r :: later).map Prod.snd)).lcdBacklight = some false) := by
  constructor
  · intro pre r post hrs hlt
    have hmem : ∀ x ∈ pre ++ [r], x ∈ rs := by
      intro x hx
      rw [hrs]
      rcases List.mem_append.1 hx with hx | hx
      · exact List.mem_append_left _ hx
      · rw [List.mem_singleton] at hx
        rw [hx]
        exact List.mem_append_right _ (List.mem_cons_self r post)
    have hrun := run_released p (pre ++ [r]) s hstart
      (fun x hx => hreleased x (hmem x hx)) (fun x hx => hclock x (hmem x hx))
      (fun x hx => hrange x (hmem x hx))
    have hall : (pre ++ [r]).all (fun r => decide (r.1 - p < 60000)) = true := by
      rw [List.all_eq_true]
      intro x hx
      rw [hrs, List.pairwise_append] at hsorted
      rcases List.mem_append.1 hx with hx | hx
      · have hle : x.1 ≤ r.1 := hsorted.2.2 x hx r (List.mem_cons_self r post)
        simp only [decide_eq_true_eq]
        omega
      · rw [List.mem_singleton] at hx
        rw [hx]
        simpa using hlt
    rw [hrun.1, hrun.2, hall, hon]
    exact ⟨rfl, rfl⟩
  · intro pre r later post hrs hge
    have hmem : ∀ x ∈ pre ++ r :: later, x ∈ rs := by
      intro x hx
      rw [hrs]
      rcases List.mem_append.1 hx with hx | hx
      · exact List.mem_append_left _ hx
      · rcases List.mem_cons.1 hx with hx | hx
        · rw [hx]
          exact List.mem_append_right _ (List.mem_cons_self r _)
        · exact List.mem_append_right _
            (List.mem_cons_of_mem r (List.mem_append_left _ hx))
    have hrun := run_released p (pre ++ r :: later) s hstart
      (fun x hx => hreleased x (hmem x hx)) (fun x hx => hclock x (hmem x hx))
      (fun x hx => hrange x (hmem x hx))
    have hall : (pre ++ r :: later).all (fun r => decide (r.1 - p < 60000)) = false := by
      rw [List.all_eq_false]
      refine ⟨r, List.mem_append_right _ (List.mem_cons_self r later), ?_⟩
      simp only [decide_eq_true_eq]
      omega
    rw [hrun.1, hrun.2, hall, hon]
    exact ⟨rfl, rfl⟩

/-- Scenarios C and D for C8. With `p = 0` and iterations at 59,999, 60,000 and
60,001 ms the backlight and the display are on, then off, then still off. An
iteration that starts at 59,990 ms and whose backlight block reads 60,010 ms
turns them off. With the button held at 50,000 ms and released afterwards, they
are on at 60,000 ms and at 109,999 ms and off at 110,000 ms. -/
theorem backlight_timeout_run_witness :
    (((run (setup initState 0 0)
          [atTime 59999 Flt.nan Flt.nan Level.HIGH]).backlightOn = true
        ∧ (run (setup initState 0 0)
          [atTime 59999 Flt.nan Flt.nan Level.HIGH]).lcdBacklight = some true)
      ∧ ((run (setup initState 0 0)
          [atTime 59999 Flt.nan Flt.nan Level.HIGH,
            atTime 60000 Flt.nan Flt.nan Level.HIGH]).backlightOn = false
        ∧ (run (setup initState 0 0)
          [atTime 59999 Flt.nan Flt.nan Level.HIGH,
            atTime 60000 Flt.nan Flt.nan Level.HIGH]).lcdBacklight = some false)
      ∧ ((run (setup initState 0 0)
          [atTime 59999 Flt.nan Flt.nan Level.HIGH, atTime 60000 Flt.nan Flt.nan Level.HIGH,
            atTime 60001 Flt.nan Flt.nan Level.HIGH]).backlightOn = false
        ∧ (run (setup initState 0 0)
          [atTime 59999 Flt.nan Flt.nan Level.HIGH, atTime 60000 Flt.nan Flt.nan Level.HIGH,
            atTime 60001 Flt.nan Flt.nan Level.HIGH]).lcdBacklight = some false))
      ∧ ((run (setup initState 0 0)
          [LoopIn.mk 59990 Flt.nan Flt.nan 59990 Level.HIGH 60000 60010]).backlightOn = false
        ∧ (run (setup initState 0 0)
          [LoopIn.mk 59990 Flt.nan Flt.nan 59990 Level.HIGH 60000 60010]).lcdBacklight
            = some false)
      ∧ ((run (setup initState 0 0)
          [atTime 50000 Flt.nan Flt.nan Level.LOW,
            atTime 60000 Flt.nan Flt.nan Level.HIGH]).backlightOn = true
        ∧ (run (setup initState 0 0)
          [atTime 50000 Flt.nan Flt.nan Level.LOW,
            atTime 60000 Flt.nan Flt.nan Level.HIGH]).lcdBacklight = some true
        ∧ (run (setup initState 0 0)
          [atTime 50000 Flt.nan Flt.nan Level.LOW,
            atTime 60000 Flt.nan Flt.nan Level.HIGH]).backlightTimerStart = 50000
        ∧ (run (setup initState 0 0)
          [atTime 50000 Flt.nan Flt.nan Level.LOW, atTime 60000 Flt.nan Flt.nan Level.HIGH,
            atTime 109999 Flt.nan Flt.nan Level.HIGH]).backlightOn = true
        ∧ (run (setup initState 0 0)
          [atTime 50000 Flt.nan Flt.nan Level.LOW, atTime 60000 Flt.nan Flt.nan Level.HIGH,
            atTime 109999 Flt.nan Flt.nan Level.HIGH,
            atTime 110000 Flt.nan Flt.nan Level.HIGH]).backlightOn = false
        ∧ (run (setup initState 0 0)
          [atTime 50000 Flt.nan Flt.nan Level.LOW, atTime 60000 Flt.nan Flt.nan Level.HIGH,
            atTime 109999 Flt.nan Flt.nan Level.HIGH,
            atTime 110000 Flt.nan Flt.nan Level.HIGH]).lcdBacklight = some false) :=
  have h := backlight_timeout_run (setup initState 0 0) 0
    [(59999, atTime 59999 Flt.nan Flt.nan Level.HIGH),
      (60000, atTime 60000 Flt.nan Flt.nan Level.HIGH),
      (60001, atTime 60001 Flt.nan Flt.nan Level.HIGH)]
    (by decide) (by decide) (by decide) (by decide) (by decide) (by decide)
  have g := backlight_timeout_run (setup initState 0 0) 0
    [(60010, LoopIn.mk 59990 Flt.nan Flt.nan 59990 Level.HIGH 60000 60010)]
    (by decide) (by decide) (by decide) (by decide) (by decide) (by decide)
  ⟨⟨h.1 [] (59999, atTime 59999 Flt.nan Flt.nan Level.HIGH)
        [(60000, atTime 60000 Flt.nan Flt.nan Level.HIGH),
          (60001, atTime 60001 Flt.nan Flt.nan Level.HIGH)] rfl (by decide),
      h.2 [(59999, atTime 59999 Flt.nan Flt.nan Level.HIGH)]
        (60000, atTime 60000 Flt.nan Flt.nan Level.HIGH) []
        [(60001, atTime 60001 Flt.nan Flt.nan Level.HIGH)] rfl (by decide),
      h.2 [(59999, atTime 59999 Flt.nan Flt.nan Level.HIGH)]
        (60000, atTime 60000 Flt.nan Flt.nan Level.HIGH)
        [(60001, atTime 60001 Flt.nan Flt.nan Level.HIGH)] [] rfl (by decide)⟩,
    g.2 [] (60010, LoopIn.mk 59990 Flt.nan Flt.nan 59990 Level.HIGH 60000 60010) [] []
      rfl (by decide),
    by decide⟩

/-! ## The pump block by cases -/

/-- The pump block either switches the pump off, or switches it on, or returns
its input. -/
theorem pumpBlock_cases (u : State) (n v : Nat) :
    ((u.pumpOn = true ∧ u.onMs ≤ sub32 n u.stateStarted)
        ∧ pumpBlock u n v = switchPump (updateCycle (relatch u)) false v)
      ∨ ((u.pumpOn = false ∧ u.offMs ≤ sub32 n u.stateStarted)
        ∧ pumpBlock u n v = switchPump (updateCycle (relatch u)) true v)
      ∨ (¬ (u.pumpOn = true ∧ u.onMs ≤ sub32 n u.stateStarted)
        ∧ ¬ (u.pumpOn = false ∧ u.offMs ≤ sub32 n u.stateStarted)
        ∧ pumpBlock u n v = u) := by
  unfold pumpBlock elapsed
  by_cases h1 : u.pumpOn = true ∧ u.onMs ≤ sub32 n u.stateStarted
  · rw [if_pos h1]
    exact Or.inl ⟨h1, rfl⟩
  · by_cases h2 : u.pumpOn = false ∧ u.offMs ≤ sub32 n u.stateStarted
    · rw [if_neg h1, if_pos h2]
      exact Or.inr (Or.inl ⟨h2, rfl⟩)
    · rw [if_neg h1, if_neg h2]
      exact Or.inr (Or.inr ⟨h1, h2, rfl⟩)

/-- A pump block that leaves the phase as it was has returned its input, and
neither switching condition held. -/
theorem pumpBlock_same_phase (u : State) (n v : Nat)
    (hsame : (pumpBlock u n v).pumpOn = u.pumpOn) :
    pumpBlock u n v = u
      ∧ ¬ (u.pumpOn = true ∧ u.onMs ≤ sub32 n u.stateStarted)
      ∧ ¬ (u.pumpOn = false ∧ u.offMs ≤ sub32 n u.stateStarted) := by
  rcases pumpBlock_cases u n v with ⟨h, he⟩ | ⟨h, he⟩ | ⟨h1, h2, he⟩
  · rw [he, (switch_after_relatch u false v).2.2.1, h.1] at hsame
    exact Bool.noConfusion hsame
  · rw [he, (switch_after_relatch u true v).2.2.1, h.1] at hsame
    exact Bool.noConfusion hsame
  · exact ⟨he, h1, h2⟩

/-- A pump block that changes the phase found one of its two conditions true,
and stores the clock value read in `switchPump`. -/
theorem pumpBlock_changed_phase (u : State) (n v : Nat)
    (hne : (pumpBlock u n v).pumpOn ≠ u.pumpOn) :
    ((u.pumpOn = true ∧ u.onMs ≤ sub32 n u.stateStarted)
        ∨ (u.pumpOn = false ∧ u.offMs ≤ sub32 n u.stateStarted))
      ∧ (pumpBlock u n v).stateStarted = v := by
  rcases pumpBlock_cases u n v with ⟨h, he⟩ | ⟨h, he⟩ | ⟨-, -, he⟩
  · exact ⟨Or.inl h, by rw [he, (switch_after_relatch u false v).2.2.2.1]⟩
  · exact ⟨Or.inr h, by rw [he, (switch_after_relatch u true v).2.2.2.1]⟩
  · rw [he] at hne
    exact absurd rfl hne

/-- The sensor block never touches the pump phase, the phase start or the
relay pin. -/
theorem sensorBlock_phase (s : State) (now : Nat) (h t : Flt) :
    (sensorBlock s now h t).pumpOn = s.pumpOn
      ∧ (sensorBlock s now h t).stateStarted = s.stateStarted
      ∧ (sensorBlock s now h t).relayWrites = s.relayWrites := by
  simp only [sensorBlock, updateCycle]
  split_ifs <;> simp

/-- With the latch set, the sensor block changes neither the latch nor the
cycle. -/
theorem sensorBlock_latched (s : State) (now : Nat) (h t : Flt)
    (hhot : s.hotDetected = true) :
    (sensorBlock s now h t).hotDetected = true
      ∧ (sensorBlock s now h t).onMs = s.onMs
      ∧ (sensorBlock s now h t).offMs = s.offMs
      ∧ (sensorBlock s now h t).cycleTag = s.cycleTag := by
  have hno : ∀ u : State, u.hotDetected = true →
      ¬ (t.ge TEMP_THRESHOLD = true ∧ u.hotDetected = false) := by
    intro u hu hc
    rw [hu] at hc
    exact Bool.noConfusion hc.2
  simp only [sensorBlock]
  rw [if_neg (hno _ hhot)]
  split_ifs <;> simp [hhot]

/-! ## The cycle follows the latch -/

theorem cycleOk_updateCycle (s : State) : CycleOk (updateCycle s) := by
  unfold CycleOk updateCycle
  cases hhot : s.hotDetected <;> simp

theorem cycleOk_switchPump (s : State) (b : Bool) (t : Nat) : CycleOk (switchPump s b t) := by
  unfold switchPump
  exact cycleOk_updateCycle _

theorem cycleOk_sensorBlock (s : State) (now : Nat) (h t : Flt) (hs : CycleOk s) :
    CycleOk (sensorBlock s now h t) := by
  simp only [sensorBlock]
  split_ifs
  · exact cycleOk_updateCycle _
  · exact hs
  · exact hs
  · exact hs

theorem cycleOk_pumpBlock (s : State) (now t : Nat) (hs : CycleOk s) :
    CycleOk (pumpBlock s now t) := by
  unfold pumpBlock
  split_ifs
  · exact cycleOk_switchPump _ _ _
  · exact cycleOk_switchPump _ _ _
  · exact hs

theorem cycleOk_loop (s : State) (i : LoopIn) (hs : CycleOk s) : CycleOk (loop s i) := by
  have hp := cycleOk_pumpBlock _ i.now i.tSwitch (cycleOk_sensorBlock s i.now i.hum i.temp hs)
  have hl := loop_core s i
  unfold CycleOk at hp ⊢
  rw [hl.2.2.1, hl.2.2.2.1, hl.2.2.2.2.1, hl.2.2.2.2.2.1]
  exact hp

theorem cycleOk_setup (a b : Nat) : CycleOk (setup initState a b) := by
  have h := cycleOk_switchPump initState true a
  unfold CycleOk at h ⊢
  exact h

theorem cycleOk_run (s : State) (is : List LoopIn) (hs : CycleOk s) : CycleOk (run s is) := by
  induction is generalizing s with
  | nil => exact hs
  | cons i rest ih => exact ih (loop s i) (cycleOk_loop s i hs)

/-- In a state whose cycle follows the latch, both durations are at most
1,200,000 ms, the on-duration is at least 900,000 ms, the off-duration at least
600,000 ms, and the tag has five characters. -/
theorem cycleOk_bounds (s : State) (hs : CycleOk s) :
    900000 ≤ s.onMs ∧ s.onMs ≤ 1200000 ∧ 600000 ≤ s.offMs ∧ s.offMs ≤ 1200000
      ∧ s.cycleTag.length = 5 := by
  unfold CycleOk at hs
  cases hhot : s.hotDetected
  · rw [hhot] at hs
    simp only [Bool.false_eq_true, if_false, Prod.mk.injEq] at hs
    rw [hs.1, hs.2.1, hs.2.2]
    decide
  · rw [hhot] at hs
    simp only [if_true, Prod.mk.injEq] at hs
    rw [hs.1, hs.2.1, hs.2.2]
    decide

/-! ## Latch and cycle across iterations -/

/-- C11: from a state with `hotDetected = true`, an iteration of `loop` that
leaves the pump phase as it was (no transition fires: the relay pin is not
written) ends with `hotDetected = true` and with the cycle it started with, so
a hot cycle is still the hot cycle, whatever the sensor returns and whether or
not a poll is due; and the sensor block alone never clears a set latch. -/
theorem hot_latch_sticky (s : State) (i : LoopIn)
    (hhot : s.hotDetected = true)
    (hsame : (loop s i).pumpOn = s.pumpOn) :
    (loop s i).hotDetected = true
      ∧ ((loop s i).onMs, (loop s i).offMs, (loop s i).cycleTag)
        = (s.onMs, s.offMs, s.cycleTag)
      ∧ ((s.onMs, s.offMs, s.cycleTag) = (1200000, 600000, "20/10") →
          ((loop s i).onMs, (loop s i).offMs, (loop s i).cycleTag) = (1200000, 600000, "20/10"))
      ∧ (loop s i).relayWrites = s.relayWrites
      ∧ (∀ (now : Nat) (h t : Flt), (sensorBlock s now h t).hotDetected = true) := by
  have hl := loop_core s i
  have hph := sensorBlock_phase s i.now i.hum i.temp
  have hla := sensorBlock_latched s i.now i.hum i.temp hhot
  have hpb := pumpBlock_same_phase (sensorBlock s i.now i.hum i.temp) i.now i.tSwitch
    (by rw [← hl.1, hsame, hph.1])
  have hcyc : ((loop s i).onMs, (loop s i).offMs, (loop s i).cycleTag)
      = (s.onMs, s.offMs, s.cycleTag) := by
    rw [hl.2.2.2.1, hl.2.2.2.2.1, hl.2.2.2.2.2.1, hpb.1, hla.2.1, hla.2.2.1, hla.2.2.2]
  refine ⟨?_, hcyc, ?_, ?_, ?_⟩
  · rw [hl.2.2.1, hpb.1, hla.1]
  · intro hc
    rw [hcyc, hc]
  · rw [hl.2.2.2.2.2.2.2.2, hpb.1, hph.2.2]
  · intro now h t
    exact (sensorBlock_latched s now h t hhot).1

/-- A latched state under the hot cycle, for C11: a due poll returns a valid
25 degrees, 10 s into the ON phase; the latch and the hot cycle stay. -/
theorem hot_latch_sticky_witness :
    (loop { setup initState 0 0 with
          hotDetected := true, onMs := 1200000, offMs := 600000, cycleTag := "20/10" }
        (atTime 10000 (Flt.fin 40) (Flt.fin 25) Level.HIGH)).lastTemp = Flt.fin 25
      ∧ (loop { setup initState 0 0 with
          hotDetected := true, onMs := 1200000, offMs := 600000, cycleTag := "20/10" }
        (atTime 10000 (Flt.fin 40) (Flt.fin 25) Level.HIGH)).hotDetected = true
      ∧ ((loop { setup initState 0 0 with
          hotDetected := true, onMs := 1200000, offMs := 600000, cycleTag := "20/10" }
        (atTime 10000 (Flt.fin 40) (Flt.fin 25) Level.HIGH)).onMs,
         (loop { setup initState 0 0 with
          hotDetected := true, onMs := 1200000, offMs := 600000, cycleTag := "20/10" }
        (atTime 10000 (Flt.fin 40) (Flt.fin 25) Level.HIGH)).offMs,
         (loop { setup initState 0 0 with
          hotDetected := true, onMs := 1200000, offMs := 600000, cycleTag := "20/10" }
        (atTime 10000 (Flt.fin 40) (Flt.fin 25) Level.HIGH)).cycleTag)
        = (1200000, 600000, "20/10") :=
  have h := hot_latch_sticky { setup initState 0 0 with
          hotDetected := true, onMs := 1200000, offMs := 600000, cycleTag := "20/10" }
        (atTime 10000 (Flt.fin 40) (Flt.fin 25) Level.HIGH) rfl (by decide)
  ⟨by decide, h.1, h.2.2.1 rfl⟩

/-- C12: the cycle is a function of the latch in every reachable state. With
the global initialisers, after `setup`, and after any sequence of iterations of
`loop` run from there, for all clock values, sensor results and button levels,
`(onMs, offMs, cycleTag)` is (1,200,000, 600,000, "20/10") when `hotDetected`
is true and (900,000, 900,000, "15/15") when it is false. -/
theorem cycle_follows_latch (tSwitch tBacklight : Nat) (is : List LoopIn) :
    ((initState.onMs, initState.offMs, initState.cycleTag)
        = (if initState.hotDetected = true then (1200000, 600000, "20/10")
            else (900000, 900000, "15/15")))
      ∧ (((run (setup initState tSwitch tBacklight) is).onMs,
          (run (setup initState tSwitch tBacklight) is).offMs,
          (run (setup initState tSwitch tBacklight) is).cycleTag)
        = (if (run (setup initState tSwitch tBacklight) is).hotDetected = true
            then (1200000, 600000, "20/10") else (900000, 900000, "15/15")))
      ∧ (∀ (s : State) (i : LoopIn),
          ((s.onMs, s.offMs, s.cycleTag)
            = (if s.hotDetected = true then (1200000, 600000, "20/10")
                else (900000, 900000, "15/15"))) →
          (((loop s i).onMs, (loop s i).offMs, (loop s i).cycleTag)
            = (if (loop s i).hotDetected = true then (1200000, 600000, "20/10")
                else (900000, 900000, "15/15")))) := by
  refine ⟨by decide, ?_, ?_⟩
  · have h := cycleOk_run (setup initState tSwitch tBacklight) is
      (cycleOk_setup tSwitch tBacklight)
    unfold CycleOk HOT_ON_MS HOT_OFF_MS COOL_ON_MS COOL_OFF_MS at h
    exact h
  · intro s i hs
    have h := cycleOk_loop s i (by
      unfold CycleOk HOT_ON_MS HOT_OFF_MS COOL_ON_MS COOL_OFF_MS
      exact hs)
    unfold CycleOk HOT_ON_MS HOT_OFF_MS COOL_ON_MS COOL_OFF_MS at h
    exact h

/-- C14: the sensor block leaves `pumpOn`, the level driven on the relay pin
(no write is added) and `stateStarted` as they were, for every state and every
input; this covers the poll on which it sets `hotDetected` and recomputes the
cycle, a due poll with a valid reading >= 30.0 while the latch is clear. -/
theorem escalation_keeps_phase (s : State) (now : Nat) (h t : Flt) :
    (sensorBlock s now h t).pumpOn = s.pumpOn
      ∧ (sensorBlock s now h t).relayLevel = s.relayLevel
      ∧ (sensorBlock s now h t).relayWrites = s.relayWrites
      ∧ (sensorBlock s now h t).stateStarted = s.stateStarted
      ∧ (s.hotDetected = false → 10000 ≤ sub32 now s.lastSensorRead →
          h.isnan = false → t.isnan = false → t.ge (Flt.fin 30) = true →
          (sensorBlock s now h t).hotDetected = true
            ∧ ((sensorBlock s now h t).onMs, (sensorBlock s now h t).offMs,
                (sensorBlock s now h t).cycleTag) = (1200000, 600000, "20/10")) := by
  have hph := sensorBlock_phase s now h t
  refine ⟨hph.1, ?_, hph.2.2, hph.2.1, ?_⟩
  · rw [State.relayLevel, State.relayLevel, hph.2.2]
  · intro hcold hdue hh ht hge
    rw [sensorBlock_escalates s now h t hcold hdue hh ht hge]
    exact ⟨rfl, rfl⟩

/-- Once `updateCycle` has run, `switchPump` and the variant without its final
`updateCycle` give the same state. -/
theorem switchPump_after_updateCycle (x : State) (b : Bool) (t : Nat) :
    switchPump (updateCycle x) b t = switchPumpPlain (updateCycle x) b t := by
  unfold switchPump switchPumpPlain updateCycle
  cases hhot : x.hotDetected <;> simp

/-- C15: the second recomputation is redundant. The pump block as coded
(latch recomputed, `updateCycle`, then `switchPump`, which calls `updateCycle`
again) produces the same state as the block in which `switchPump` does not call
`updateCycle`, for every state and clock values, in both directions. -/
theorem second_updateCycle_redundant (s : State) (now t : Nat) :
    pumpBlock s now t = pumpBlockPlain s now t
      ∧ switchPump (updateCycle (relatch s)) false t
        = switchPumpPlain (updateCycle (relatch s)) false t
      ∧ switchPump (updateCycle (relatch s)) true t
        = switchPumpPlain (updateCycle (relatch s)) true t := by
  refine ⟨?_, switchPump_after_updateCycle _ _ _, switchPump_after_updateCycle _ _ _⟩
  unfold pumpBlock pumpBlockPlain
  rw [switchPump_after_updateCycle, switchPump_after_updateCycle]

/-! ## Recorded readings -/

/-- The sensor block records a reading exactly when the read succeeds; the
recorded values are then numbers, and otherwise they are the old ones. -/
theorem sensorBlock_reading (s : State) (i : LoopIn) :
    (sensorBlock s i.now i.hum i.temp).lastTemp.isnan
        = (s.lastTemp.isnan && !pollSucceeds s i)
      ∧ (sensorBlock s i.now i.hum i.temp).lastHum.isnan
        = (s.lastHum.isnan && !pollSucceeds s i) := by
  simp only [sensorBlock, updateCycle, pollSucceeds]
  cases hh : i.hum.isnan <;> cases ht : i.temp.isnan <;> split_ifs <;> simp_all

/-- The pump block keeps the recorded reading. -/
theorem pumpBlock_reading (u : State) (n v : Nat) :
    (pumpBlock u n v).lastTemp = u.lastTemp ∧ (pumpBlock u n v).lastHum = u.lastHum := by
  rcases pumpBlock_cases u n v with ⟨-, he⟩ | ⟨-, he⟩ | ⟨-, -, he⟩
  · rw [he]
    exact ⟨(switch_after_relatch u false v).2.2.2.2.1, (switch_after_relatch u false v).2.2.2.2.2.1⟩
  · rw [he]
    exact ⟨(switch_after_relatch u true v).2.2.2.2.1, (switch_after_relatch u true v).2.2.2.2.2.1⟩
  · rw [he]
    exact ⟨rfl, rfl⟩

theorem loop_reading (s : State) (i : LoopIn) :
    (loop s i).lastTemp.isnan = (s.lastTemp.isnan && !pollSucceeds s i)
      ∧ (loop s i).lastHum.isnan = (s.lastHum.isnan && !pollSucceeds s i) := by
  have hl := loop_core s i
  have hp := pumpBlock_reading (sensorBlock s i.now i.hum i.temp) i.now i.tSwitch
  have hs := sensorBlock_reading s i
  rw [hl.2.2.2.2.2.2.1, hl.2.2.2.2.2.2.2.1, hp.1, hp.2]
  exact hs

theorem run_reading (s : State) (is : List LoopIn) :
    (run s is).lastTemp.isnan = (s.lastTemp.isnan && !everSucceeded s is)
      ∧ (run s is).lastHum.isnan = (s.lastHum.isnan && !everSucceeded s is) := by
  induction is generalizing s with
  | nil => simp [run, everSucceeded]
  | cons i rest ih =>
    have hstep := loop_reading s i
    have hrest := ih (loop s i)
    have hrun : run s (i :: rest) = run (loop s i) rest := rfl
    have hever : everSucceeded s (i :: rest)
        = (pollSucceeds s i || everSucceeded (loop s i) rest) := rfl
    rw [hrun, hever, hrest.1, hrest.2, hstep.1, hstep.2]
    simp [Bool.and_assoc]

/-- C16: readings are never invalidated. An iteration of `loop` started with
`lastTemp` and `lastHum` both numbers ends with both numbers, whatever the
sensor returns; and in every state reached from `setup`, `lastTemp` is NaN
exactly when `lastHum` is NaN, exactly when no sensor read has succeeded so
far. -/
theorem readings_never_invalidated (tSwitch tBacklight : Nat) (is : List LoopIn) :
    (∀ (s : State) (i : LoopIn), s.lastTemp.isnan = false → s.lastHum.isnan = false →
        (loop s i).lastTemp.isnan = false ∧ (loop s i).lastHum.isnan = false)
      ∧ ((run (setup initState tSwitch tBacklight) is).lastTemp.isnan = true
          ↔ (run (setup initState tSwitch tBacklight) is).lastHum.isnan = true)
      ∧ ((run (setup initState tSwitch tBacklight) is).lastTemp.isnan = true
          ↔ everSucceeded (setup initState tSwitch tBacklight) is = false) := by
  have hr := run_reading (setup initState tSwitch tBacklight) is
  have ht0 : (setup initState tSwitch tBacklight).lastTemp.isnan = true := by
    simp [setup, switchPump, updateCycle, initState, Flt.isnan]
  have hh0 : (setup initState tSwitch tBacklight).lastHum.isnan = true := by
    simp [setup, switchPump, updateCycle, initState, Flt.isnan]
  refine ⟨?_, ?_, ?_⟩
  · intro s i ht hh
    have hstep := loop_reading s i
    rw [hstep.1, hstep.2, ht, hh]
    exact ⟨rfl, rfl⟩
  · rw [hr.1, hr.2, ht0, hh0]
  · rw [hr.1, ht0]
    simp

/-! ## Dwell time and countdown -/

/-- C18: minimum dwell time. In a state reached from `setup`, an iteration of
`loop` changes the pump phase only if the elapsed time it computes for the
current phase is at least 600,000 ms, and changes it from ON to OFF only if it
is at least 900,000 ms. So when the phase started at time `p` and the iteration
runs at time `t` with `p <= t < p + 2^32`, the relay is toggled only if
`t - p >= 600,000`. -/
theorem minimum_dwell (tSwitch tBacklight : Nat) (is : List LoopIn) (s : State)
    (hreach : s = run (setup initState tSwitch tBacklight) is)
    (i : LoopIn) (hchange : (loop s i).pumpOn ≠ s.pumpOn) :
    600000 ≤ elapsed s i.now
      ∧ (s.pumpOn = true → 900000 ≤ elapsed s i.now)
      ∧ (loop s i).relayWrites.length = s.relayWrites.length + 1
      ∧ (∀ p t : Nat, s.stateStarted = p % 4294967296 → p ≤ t → t < p + 4294967296 →
          i.now = t % 4294967296 → 600000 ≤ t - p) := by
  have hok : CycleOk s := by
    rw [hreach]
    exact cycleOk_run _ is (cycleOk_setup tSwitch tBacklight)
  have hok1 := cycleOk_sensorBlock s i.now i.hum i.temp hok
  have hb := cycleOk_bounds _ hok1
  have hph := sensorBlock_phase s i.now i.hum i.temp
  have hl := loop_core s i
  have hne : (pumpBlock (sensorBlock s i.now i.hum i.temp) i.now i.tSwitch).pumpOn
      ≠ (sensorBlock s i.now i.hum i.temp).pumpOn := by
    rw [← hl.1, hph.1]
    exact hchange
  have hfire := (pumpBlock_changed_phase _ i.now i.tSwitch hne).1
  rw [hph.1, hph.2.1] at hfire
  have hlow : 600000 ≤ elapsed s i.now := by
    unfold elapsed
    rcases hfire with h | h
    · omega
    · omega
  refine ⟨hlow, ?_, ?_, ?_⟩
  · intro hon
    unfold elapsed
    rcases hfire with h | h
    · omega
    · rw [hon] at h
      exact Bool.noConfusion h.1
  · rw [hl.2.2.2.2.2.2.2.2]
    rcases pumpBlock_cases (sensorBlock s i.now i.hum i.temp) i.now i.tSwitch
      with ⟨-, he⟩ | ⟨-, he⟩ | ⟨-, -, he⟩
    · rw [he, (switch_after_relatch _ false _).2.2.2.2.2.2, hph.2.2]
      rfl
    · rw [he, (switch_after_relatch _ true _).2.2.2.2.2.2, hph.2.2]
      rfl
    · rw [he] at hne
      exact absurd rfl hne
  · intro p t hp h1 h2 hnow
    have hsub := sub32_unwrapped p t h1 h2
    unfold elapsed at hlow
    unfold U32 at hsub
    rw [hp, hnow, hsub] at hlow
    exact hlow

/-- The first phase change after `setup`, for C18: started at clock value 0,
the pump goes from ON to OFF in the iteration at 900,000 ms. -/
theorem minimum_dwell_witness :
    (loop (setup initState 0 0) (atTime 900000 Flt.nan Flt.nan Level.HIGH)).pumpOn = false
      ∧ (setup initState 0 0).pumpOn = true
      ∧ 900000 ≤ elapsed (setup initState 0 0)
          (atTime 900000 Flt.nan Flt.nan Level.HIGH).now :=
  ⟨by decide, by decide,
    (minimum_dwell 0 0 [] (setup initState 0 0) rfl
      (atTime 900000 Flt.nan Flt.nan Level.HIGH) (by decide)).2.1 (by decide)⟩

/-- C19: escalation can cut the OFF phase short. After `setup` at clock value
0 and a first iteration at 900,000 ms (the sensor read fails), the pump is OFF
under the cool cycle with the latch clear. In an iteration 700,000 ms later a
valid reading of 32 degrees both selects the hot cycle and switches the pump ON
with the phase start reset to the clock value read in `switchPump`; with a
failed read, or with a reading of 25 degrees, the same iteration leaves the
pump OFF and the phase start where it was. -/
theorem escalation_cuts_off_phase :
    ∃ (is : List LoopIn) (i : LoopIn),
      (run (setup initState 0 0) is).pumpOn = false
        ∧ (run (setup initState 0 0) is).hotDetected = false
        ∧ ((run (setup initState 0 0) is).onMs, (run (setup initState 0 0) is).offMs,
            (run (setup initState 0 0) is).cycleTag) = (900000, 900000, "15/15")
        ∧ 600000 ≤ elapsed (run (setup initState 0 0) is) i.now
        ∧ elapsed (run (setup initState 0 0) is) i.now < 900000
        ∧ i.hum.isnan = false ∧ i.temp.isnan = false ∧ i.temp.ge (Flt.fin 30) = true
        ∧ (loop (run (setup initState 0 0) is) i).hotDetected = true
        ∧ ((loop (run (setup initState 0 0) is) i).onMs,
            (loop (run (setup initState 0 0) is) i).offMs,
            (loop (run (setup initState 0 0) is) i).cycleTag) = (1200000, 600000, "20/10")
        ∧ (loop (run (setup initState 0 0) is) i).pumpOn = true
        ∧ (loop (run (setup initState 0 0) is) i).stateStarted = i.tSwitch
        ∧ (loop (run (setup initState 0 0) is) i).relayLevel = some Level.LOW
        ∧ (loop (run (setup initState 0 0) is) { i with hum := Flt.nan, temp := Flt.nan }).pumpOn
            = false
        ∧ (loop (run (setup initState 0 0) is)
              { i with hum := Flt.nan, temp := Flt.nan }).stateStarted
            = (run (setup initState 0 0) is).stateStarted
        ∧ (loop (run (setup initState 0 0) is) { i with temp := Flt.fin 25 }).pumpOn = false
        ∧ (loop (run (setup initState 0 0) is) { i with temp := Flt.fin 25 }).stateStarted
            = (run (setup initState 0 0) is).stateStarted :=
  ⟨[atTime 900000 Flt.nan Flt.nan Level.HIGH],
    atTime 1600000 (Flt.fin 50) (Flt.fin 32) Level.HIGH, by decide⟩

/-- Arithmetic of the countdown when the elapsed time is below a limit of at
most 1,200,000 ms: nothing wraps, and the narrowing to 8 bits is exact. -/
theorem countdown_arith (L e : Nat) (hL : L ≤ 1200000) (he : e < L) :
    add32 (sub32 L e) 999 / 1000 = (L - e + 999) / 1000
      ∧ sub32 L e = L - e
      ∧ add32 (sub32 L e) 999 = L - e + 999
      ∧ 1 ≤ (L - e + 999) / 1000
      ∧ (L - e + 999) / 1000 ≤ 1200
      ∧ ((L - e + 999) / 1000 / 60) % 256 = (L - e + 999) / 1000 / 60
      ∧ ((L - e + 999) / 1000 % 60) % 256 = (L - e + 999) / 1000 % 60
      ∧ (L - e + 999) / 1000 / 60 ≤ 20
      ∧ (L - e + 999) / 1000 % 60 ≤ 59
      ∧ (L - e + 999) / 1000 / 60 * 60 + (L - e + 999) / 1000 % 60 = (L - e + 999) / 1000 := by
  have h1 : sub32 L e = L - e := by
    unfold sub32 U32
    omega
  have h2 : add32 (L - e) 999 = L - e + 999 := by
    unfold add32 U32
    omega
  rw [h1, h2]
  refine ⟨rfl, rfl, rfl, ?_, ?_, ?_, ?_, ?_, ?_, ?_⟩ <;> omega

/-- The row printed by a refresh depends on the state only through the pump
phase and the cycle. -/
theorem renderRow2_congr (u v : State) (el : Nat)
    (hp : u.pumpOn = v.pumpOn) (hon : u.onMs = v.onMs) (hoff : u.offMs = v.offMs)
    (htag : u.cycleTag = v.cycleTag) :
    renderRow2 u el = renderRow2 v el := by
  simp only [renderRow2, minutes, seconds, remaining, used, hp, hon, hoff, htag]

theorem sensorBlock_lastLcd (s : State) (now : Nat) (h t : Flt) :
    (sensorBlock s now h t).lastLcd = s.lastLcd := by
  simp only [sensorBlock, updateCycle]
  split_ifs <;> simp

theorem pumpBlock_lastLcd (s : State) (now t : Nat) :
    (pumpBlock s now t).lastLcd = s.lastLcd := by
  simp only [pumpBlock, switchPump, updateCycle, relatch]
  split_ifs <;> simp

theorem backlightBlock_row2 (s : State) (b : Level) (tp ti : Nat) :
    (backlightBlock s b tp ti).row2 = s.row2 := by
  unfold backlightBlock
  cases b <;> cases hb : s.backlightOn <;> simp <;> split <;> simp

/-- When a refresh is due, row 2 after an iteration of `loop` is rendered from
the state the pump block returns and from the elapsed time computed before the
pump block ran. -/
theorem loop_row2 (s : State) (i : LoopIn) (hdue : 500 ≤ sub32 i.now s.lastLcd) :
    (loop s i).row2
      = renderRow2 (pumpBlock (sensorBlock s i.now i.hum i.temp) i.now i.tSwitch)
          (elapsed (sensorBlock s i.now i.hum i.temp) i.now) := by
  have hdue2 : 500 ≤ sub32 i.now
      (pumpBlock (sensorBlock s i.now i.hum i.temp) i.now i.tSwitch).lastLcd := by
    rw [pumpBlock_lastLcd, sensorBlock_lastLcd]
    exact hdue
  unfold loop
  simp only [backlightBlock_row2, lcdBlock, if_pos hdue2]
  exact renderRow2_congr _ _ _ rfl rfl rfl rfl

/-- C20: countdown range without a transition. In a state reached from
`setup`, for an iteration of `loop` that leaves the pump phase as it was, the
elapsed time is below the limit of the phase, `limit - elapsed + 999` is
computed without unsigned wraparound, the remaining value lies between 1 and
1200, the 8-bit minutes and seconds are `remaining / 60 <= 20` and
`remaining % 60 <= 59` exactly, and `mm * 60 + ss` is the remaining value; it
is the value a due refresh prints. -/
theorem countdown_range (tSwitch tBacklight : Nat) (is : List LoopIn) (s : State)
    (hreach : s = run (setup initState tSwitch tBacklight) is)
    (i : LoopIn) (hsame : (loop s i).pumpOn = s.pumpOn) :
    elapsed s i.now < (if (loop s i).pumpOn = true then (loop s i).onMs else (loop s i).offMs)
      ∧ sub32 (if (loop s i).pumpOn = true then (loop s i).onMs else (loop s i).offMs)
          (elapsed s i.now)
        = (if (loop s i).pumpOn = true then (loop s i).onMs else (loop s i).offMs)
          - elapsed s i.now
      ∧ (if (loop s i).pumpOn = true then (loop s i).onMs else (loop s i).offMs)
          - elapsed s i.now + 999 < 4294967296
      ∧ remaining (loop s i) (elapsed s i.now)
        = ((if (loop s i).pumpOn = true then (loop s i).onMs else (loop s i).offMs)
            - elapsed s i.now + 999) / 1000
      ∧ 1 ≤ remaining (loop s i) (elapsed s i.now)
      ∧ remaining (loop s i) (elapsed s i.now) ≤ 1200
      ∧ minutes (loop s i) (elapsed s i.now) = remaining (loop s i) (elapsed s i.now) / 60
      ∧ seconds (loop s i) (elapsed s i.now) = remaining (loop s i) (elapsed s i.now) % 60
      ∧ minutes (loop s i) (elapsed s i.now) ≤ 20
      ∧ seconds (loop s i) (elapsed s i.now) ≤ 59
      ∧ minutes (loop s i) (elapsed s i.now) * 60 + seconds (loop s i) (elapsed s i.now)
        = remaining (loop s i) (elapsed s i.now)
      ∧ (500 ≤ sub32 i.now s.lastLcd →
          (loop s i).row2 = renderRow2 (loop s i) (elapsed s i.now)) := by
  have hok : CycleOk s := by
    rw [hreach]
    exact cycleOk_run _ is (cycleOk_setup tSwitch tBacklight)
  have hok1 := cycleOk_sensorBlock s i.now i.hum i.temp hok
  have hb := cycleOk_bounds _ hok1
  have hph := sensorBlock_phase s i.now i.hum i.temp
  have hl := loop_core s i
  have hpb := pumpBlock_same_phase (sensorBlock s i.now i.hum i.temp) i.now i.tSwitch
    (by rw [← hl.1, hsame, hph.1])
  have hpump : (loop s i).pumpOn = (sensorBlock s i.now i.hum i.temp).pumpOn := by
    rw [hl.1, hpb.1]
  have hon : (loop s i).onMs = (sensorBlock s i.now i.hum i.temp).onMs := by
    rw [hl.2.2.2.1, hpb.1]
  have hoff : (loop s i).offMs = (sensorBlock s i.now i.hum i.temp).offMs := by
    rw [hl.2.2.2.2.1, hpb.1]
  have htag : (loop s i).cycleTag = (sensorBlock s i.now i.hum i.temp).cycleTag := by
    rw [hl.2.2.2.2.2.1, hpb.1]
  have hel : elapsed (sensorBlock s i.now i.hum i.temp) i.now = elapsed s i.now := by
    rw [elapsed, elapsed, hph.2.1]
  obtain ⟨L, hLdef⟩ : ∃ L, L = (if (loop s i).pumpOn = true then (loop s i).onMs
      else (loop s i).offMs) := ⟨_, rfl⟩
  have hn1 := hpb.2.1
  have hn2 := hpb.2.2
  rw [← elapsed, hel] at hn1 hn2
  have hfacts : L ≤ 1200000 ∧ elapsed s i.now < L := by
    rw [hLdef, hpump, hon, hoff]
    cases hp : (sensorBlock s i.now i.hum i.temp).pumpOn
    · simp only [Bool.false_eq_true, if_false]
      refine ⟨hb.2.2.2.1, ?_⟩
      by_contra hc
      exact hn2 ⟨hp, by omega⟩
    · simp only [if_true]
      refine ⟨hb.2.1, ?_⟩
      by_contra hc
      exact hn1 ⟨hp, by omega⟩
  have ha := countdown_arith L (elapsed s i.now) hfacts.1 hfacts.2
  have hrem : remaining (loop s i) (elapsed s i.now) = (L - elapsed s i.now + 999) / 1000 := by
    rw [remaining, ← hLdef]
    exact ha.1
  have hmin : minutes (loop s i) (elapsed s i.now)
      = remaining (loop s i) (elapsed s i.now) / 60 := by
    rw [minutes, hrem]
    exact ha.2.2.2.2.2.1
  have hsec : seconds (loop s i) (elapsed s i.now)
      = remaining (loop s i) (elapsed s i.now) % 60 := by
    rw [seconds, hrem]
    exact ha.2.2.2.2.2.2.1
  rw [hmin, hsec, hrem, ← hLdef]
  refine ⟨hfacts.2, ha.2.1, ?_, rfl, ha.2.2.2.1, ha.2.2.2.2.1, rfl, rfl, ha.2.2.2.2.2.2.2.1,
    ha.2.2.2.2.2.2.2.2.1, ha.2.2.2.2.2.2.2.2.2, ?_⟩
  · omega
  · intro hdue
    rw [loop_row2 s i hdue, hel]
    exact renderRow2_congr _ _ _ hl.1.symm hl.2.2.2.1.symm hl.2.2.2.2.1.symm
      hl.2.2.2.2.2.1.symm

/-- A refresh 500 ms after `setup`, for C20: 900 s remain, shown as 15:00. -/
theorem countdown_range_witness :
    remaining (loop (setup initState 0 0) (atTime 500 Flt.nan Flt.nan Level.HIGH))
        (elapsed (setup initState 0 0) (atTime 500 Flt.nan Flt.nan Level.HIGH).now) = 900
      ∧ minutes (loop (setup initState 0 0) (atTime 500 Flt.nan Flt.nan Level.HIGH))
        (elapsed (setup initState 0 0) (atTime 500 Flt.nan Flt.nan Level.HIGH).now) * 60
        + seconds (loop (setup initState 0 0) (atTime 500 Flt.nan Flt.nan Level.HIGH))
        (elapsed (setup initState 0 0) (atTime 500 Flt.nan Flt.nan Level.HIGH).now)
        = remaining (loop (setup initState 0 0) (atTime 500 Flt.nan Flt.nan Level.HIGH))
        (elapsed (setup initState 0 0) (atTime 500 Flt.nan Flt.nan Level.HIGH).now) :=
  ⟨by decide,
    (countdown_range 0 0 [] (setup initState 0 0) rfl
      (atTime 500 Flt.nan Flt.nan Level.HIGH) (by decide)).2.2.2.2.2.2.2.2.2.2.1⟩

/-! ## Display row 2 -/

/-- A number below 100 is printed on two columns once the leading zero of
lines 153 and 156 is added. -/
theorem two_columns (n : Nat) (h : n < 100) :
    ((if n < 10 then "0" else "").toList ++ printNat n).length = 2 := by
  have hall : ∀ k < 100, ((if k < 10 then "0" else "").toList ++ printNat k).length = 2 := by
    decide
  exact hall n h

/-- Number of characters a refresh prints on row 2 when minutes and seconds
are below 100 and the tag has five characters: 17 with the pump ON, 16 with
the pump OFF. -/
theorem renderRow2_length (s : State) (el : Nat)
    (hm : minutes s el < 100) (hs : seconds s el < 100) (htag : s.cycleTag.length = 5) :
    (renderRow2 s el).length = if s.pumpOn = true then 17 else 16 := by
  have h1 := two_columns (minutes s el) hm
  have h2 := two_columns (seconds s el) hs
  have h3 : s.cycleTag.toList.length = 5 := htag
  rw [List.length_append] at h1 h2
  simp only [renderRow2, used, List.length_append, List.length_replicate, htag, h3,
    List.length_cons, List.length_nil]
  cases hp : s.pumpOn
  · simp only [Bool.false_eq_true, if_false]
    have : "OFF".toList.length = 3 := rfl
    have : "P:".toList.length = 2 := rfl
    omega
  · simp only [if_true]
    have : "ON ".toList.length = 3 := rfl
    have : "P:".toList.length = 2 := rfl
    omega

/-- C17: the row is not 16 columns wide when the pump is ON. In the refresh
500 ms after `setup` (pump ON, 15:00 left, tag "15/15") the labels, the
countdown and the tag already fill 16 columns, `used` is 15, the padding loop
adds one blank, and 17 characters are printed; with the pump OFF, one
iteration after the switch at 900,000 ms, `used` is 16 and 16 characters are
printed. -/
theorem row2_width_on_is_17 :
    (setup initState 0 0).pumpOn = true
      ∧ minutes (setup initState 0 0) 500 = 15
      ∧ seconds (setup initState 0 0) 500 = 0
      ∧ used (setup initState 0 0) = 15
      ∧ (loop (setup initState 0 0) (atTime 500 Flt.nan Flt.nan Level.HIGH)).row2
        = ['P', ':', 'O', 'N', ' ', '1', '5', ':', '0', '0', ' ', '1', '5', '/', '1', '5', ' ']
      ∧ (loop (setup initState 0 0) (atTime 500 Flt.nan Flt.nan Level.HIGH)).row2.length = 17
      ∧ (run (setup initState 0 0)
          [atTime 900000 Flt.nan Flt.nan Level.HIGH,
            atTime 900500 Flt.nan Flt.nan Level.HIGH]).pumpOn = false
      ∧ used (run (setup initState 0 0)
          [atTime 900000 Flt.nan Flt.nan Level.HIGH,
            atTime 900500 Flt.nan Flt.nan Level.HIGH]) = 16
      ∧ (run (setup initState 0 0)
          [atTime 900000 Flt.nan Flt.nan Level.HIGH,
            atTime 900500 Flt.nan Flt.nan Level.HIGH]).row2
        = ['P', ':', 'O', 'F', 'F', '1', '5', ':', '0', '0', ' ', '1', '5', '/', '1', '5']
      ∧ (run (setup initState 0 0)
          [atTime 900000 Flt.nan Flt.nan Level.HIGH,
            atTime 900500 Flt.nan Flt.nan Level.HIGH]).row2.length = 16 := by
  decide

/-- C13: the countdown is wrong in the iteration that switches the phase. After
`setup` at clock value 0, the iteration at 900,000 ms switches the pump OFF and
starts the new phase at 900,000, so 900 s of the OFF phase remain; the refresh
of that iteration takes the off-duration as limit but the elapsed time of the
finished ON phase, and prints 00:00. When the same iteration runs at 901,000 ms
the subtraction wraps and the refresh prints 158:47. In the next refresh, at
900,500 ms, the countdown is 15:00. -/
theorem countdown_stale_at_switch :
    (500 ≤ sub32 (atTime 900000 Flt.nan Flt.nan Level.HIGH).now (setup initState 0 0).lastLcd
        ∧ (loop (setup initState 0 0) (atTime 900000 Flt.nan Flt.nan Level.HIGH)).pumpOn = false
        ∧ (loop (setup initState 0 0) (atTime 900000 Flt.nan Flt.nan Level.HIGH)).stateStarted
          = 900000
        ∧ (loop (setup initState 0 0) (atTime 900000 Flt.nan Flt.nan Level.HIGH)).offMs = 900000
        ∧ countdownSpec (loop (setup initState 0 0) (atTime 900000 Flt.nan Flt.nan Level.HIGH))
            900000 = 900
        ∧ remaining (loop (setup initState 0 0) (atTime 900000 Flt.nan Flt.nan Level.HIGH))
            (elapsed (setup initState 0 0) 900000) = 0
        ∧ (loop (setup initState 0 0) (atTime 900000 Flt.nan Flt.nan Level.HIGH)).row2
          = ['P', ':', 'O', 'F', 'F', '0', '0', ':', '0', '0', ' ', '1', '5', '/', '1', '5'])
      ∧ (countdownSpec (loop (setup initState 0 0) (atTime 901000 Flt.nan Flt.nan Level.HIGH))
            901000 = 900
        ∧ minutes (loop (setup initState 0 0) (atTime 901000 Flt.nan Flt.nan Level.HIGH))
            (elapsed (setup initState 0 0) 901000) = 158
        ∧ seconds (loop (setup initState 0 0) (atTime 901000 Flt.nan Flt.nan Level.HIGH))
            (elapsed (setup initState 0 0) 901000) = 47
        ∧ (loop (setup initState 0 0) (atTime 901000 Flt.nan Flt.nan Level.HIGH)).row2
          = ['P', ':', 'O', 'F', 'F', '1', '5', '8', ':', '4', '7', ' ', '1', '5', '/', '1', '5'])
      ∧ (run (setup initState 0 0)
          [atTime 900000 Flt.nan Flt.nan Level.HIGH,
            atTime 900500 Flt.nan Flt.nan Level.HIGH]).row2
        = ['P', ':', 'O', 'F', 'F', '1', '5', ':', '0', '0', ' ', '1', '5', '/', '1', '5'] := by
  decide

end Planter
